import Mathlib

/-! The libsvg image element, `svg_image.c`.

A shallow embedding of `src/SVG2PDF/lib/libsvg/svg_image.c`: the lazy decode of an
`<image>` element (`_svg_image_render`, `_svg_image_read_image`), the inline base64
loop, the PNG user transform `premultiply_data` and the JPEG pixel-copy loop.

Conventions of the embedding.

* A C `char` read as `int` is an `Int`; a byte of pixel or file data is a `Nat`.
* `unsigned int` arithmetic is arithmetic on `Nat` reduced `% 2 ^ 32`.
* A pointer that may be `NULL` is an `Option`; `image->data = some bs` is a non-NULL
  buffer and `bs` the bytes the decoder has written behind it, in write order. The
  size of the block is what the logged `malloc` requested: where `bs` is longer, the
  source has stored past the end of the block, and the status the model reports is
  that of the run in which those stores go through.
* libpng, libjpeg, the C library and the platform URL-to-path glue are not part of the
  source file. Their behaviour is a parameter, the record `world`.
* Every function returns, next to its C result, the log of the decoder entries,
  output-buffer `malloc` requests and `render_image` calls it performed.
-/

namespace SvgImage

/-! ## Types declared in the headers -/

/-- Modelled from the spec: `svg_status_t` and `svgint_status_t` are declared in `svg.h`
and `svgint.h`, which are not among the source files. The enumerators are the ones
`svg_image.c` names; the spec lists Success, FileNotFound, OutOfMemory and ParseError as
the codes that cross the boundary and the two "not this format" signals as internal.
`SVG_STATUS_SUCCESS` is the value `0` that `if (status)` and `status == 0` test. -/
inductive svg_status_t
  | SVG_STATUS_SUCCESS
  | SVG_STATUS_NO_MEMORY
  | SVG_STATUS_FILE_NOT_FOUND
  | SVG_STATUS_PARSE_ERROR
  | SVGINT_STATUS_IMAGE_NOT_PNG
  | SVGINT_STATUS_IMAGE_NOT_JPEG
  deriving DecidableEq, Repr

open svg_status_t

/-- Modelled from the spec: `svg_length_t` (declared in `svgint.h`) is "a numeric value
with unit and axis orientation". `svg_image.c` only compares `value` with `0`, so the
`double` is represented by an integer carrying its sign. -/
structure svg_length_t where
  value : Int
  unit : Nat
  orientation : Nat
  deriving DecidableEq, Repr

/-- The fields of `svg_image_t` that `svg_image.c` uses. -/
structure svg_image_t where
  url : List Int
  x : svg_length_t
  y : svg_length_t
  width : svg_length_t
  height : svg_length_t
  data : Option (List Nat)
  data_width : Nat
  data_height : Nat
  deriving DecidableEq, Repr

/-- Observable steps: entry into one of the four decoders, the `malloc` request for
the output pixel buffer, and the engine callback. -/
inductive event
  | read_png_data (fileData : List Nat)
  | read_jpeg_data (fileData : List Nat)
  | read_png (filename : List Int)
  | read_jpeg (filename : List Int)
  | malloc (size : Nat)
  | render_image (data : Option (List Nat)) (data_width data_height : Nat)
      (x y width height : svg_length_t)
  deriving DecidableEq, Repr

/-- Entry into a decoder (inline or file based). -/
def event.is_decoder : event → Bool
  | .read_png_data _ => true
  | .read_jpeg_data _ => true
  | .read_png _ => true
  | .read_jpeg _ => true
  | _ => false

/-- Entry into one of the two PNG decoders. -/
def event.is_png_decoder : event → Bool
  | .read_png_data _ => true
  | .read_png _ => true
  | _ => false

/-- C result of a function together with the node it leaves and its log. -/
structure result where
  status : svg_status_t
  image : svg_image_t
  log : List event
  deriving DecidableEq, Repr

/-! ## The libraries and the platform, as parameters -/

/-- What libpng reports for a stream: the IHDR size and the rows it hands to the user
transform (after its built-in transforms: 4 bytes per pixel, blue, green, red, alpha). -/
structure png_image where
  width : Nat
  height : Nat
  rows : List (List Nat)

/-- libjpeg message codes, as far as `_svg_image_jpeg_error_exit` tells them apart. -/
inductive jpeg_msg_code
  | JERR_NO_SOI
  | other (code : Nat)
  deriving DecidableEq, Repr

/-- Fields of `jpeg_decompress_struct` read by the adapters after
`jpeg_start_decompress`. -/
structure jpeg_header where
  output_width : Nat
  output_height : Nat
  num_components : Nat

/-- Behaviour of libjpeg on one source. `header` is `jpeg_read_header` followed by
`jpeg_start_decompress`; the missing start-of-image marker is detected there, so the
later stages raise other codes only. `scanline k` is the k-th `jpeg_read_scanlines`:
the memory at `buf[0]`, the row first. Each stage either completes or calls
`error_exit` with a message code. -/
structure jpeg_run where
  header : Except jpeg_msg_code jpeg_header
  alloc_sarray : Option Nat
  scanline : Nat → Except Nat (List Nat)
  finish : Option Nat

/-- Everything `svg_image.c` calls but does not define. libpng is created with NULL
error handlers, so a libpng error does not come back to this code as a status: `png_read`
describes the calls that complete. `malloc n = false` is a NULL result. -/
structure world where
  sizeof_unsigned_long : Nat
  url_to_path : List Int → List Int
  fopen : List Int → Option (List Nat)
  png_check_sig : List Nat → Bool
  png_create_read_struct : Bool
  png_create_info_struct : Bool
  png_read : Nat → List Nat → png_image
  malloc : Nat → Bool
  jpeg : List Nat → jpeg_run
  render_image : Option (List Nat) → Nat → Nat →
    svg_length_t → svg_length_t → svg_length_t → svg_length_t → svg_status_t

/-! ## Base64 (lines 179-241) -/

/-- The table `reverse_table[128]`. -/
def reverse_table : List Nat := [
  64, 64, 64, 64, 64, 64, 64, 64, 64, 64, 64, 64, 64, 64, 64, 64,
  64, 64, 64, 64, 64, 64, 64, 64, 64, 64, 64, 64, 64, 64, 64, 64,
  64, 64, 64, 64, 64, 64, 64, 64, 64, 64, 64, 62, 64, 64, 64, 63,
  52, 53, 54, 55, 56, 57, 58, 59, 60, 61, 64, 64, 64, 64, 64, 64,
  64,  0,  1,  2,  3,  4,  5,  6,  7,  8,  9, 10, 11, 12, 13, 14,
  15, 16, 17, 18, 19, 20, 21, 22, 23, 24, 25, 64, 64, 64, 64, 64,
  64, 26, 27, 28, 29, 30, 31, 32, 33, 34, 35, 36, 37, 38, 39, 40,
  41, 42, 43, 44, 45, 46, 47, 48, 49, 50, 51, 64, 64, 64, 64, 64]

/-- The C library `isspace` in the "C" locale: space, `\t`, `\n`, `\v`, `\f`, `\r`. -/
def isspace (c : Int) : Bool :=
  c == 32 || (9 ≤ c && c ≤ 13)

/-- The test of line 225: whitespace or the padding character `=`. -/
def skipped (c : Int) : Bool :=
  isspace c || c == 61

/-- The test of line 229: not a legal base64 character. -/
def illegal (c : Int) : Bool :=
  c > 127 || c < 0 || reverse_table.getD c.toNat 64 > 63

/-- The loop of lines 223-241 from the iterator position on, with the loop state
`bits_collected`, `accumulator` (an `unsigned int`) and `buf`. -/
def base64_loop : List Int → Nat → Nat → List Nat → List Nat
  | [], _, _, buf => buf
  | c :: rest, bits_collected, accumulator, buf =>
    if skipped c then
      base64_loop rest bits_collected accumulator buf
    else if illegal c then
      []
    else
      let accumulator := ((accumulator <<< 6) % 2 ^ 32) ||| reverse_table.getD c.toNat 64
      let bits_collected := bits_collected + 6
      if bits_collected ≥ 8 then
        let bits_collected := bits_collected - 8
        base64_loop rest bits_collected accumulator
          (buf ++ [(accumulator >>> bits_collected) &&& 0xff])
      else
        base64_loop rest bits_collected accumulator buf

/-- Lines 217-241: the decode of `mimeData` from `bits_collected = 0`,
`accumulator = 0` and an empty `buf`. -/
def base64_decode (mimeData : List Int) : List Nat :=
  base64_loop mimeData 0 0 []

/-! ## `premultiply_data` (lines 359-374) -/

/-- The value assigned to `unsigned long pixel`: the four shifted terms are `int`s
(the last one wraps at 32 bits), and the `int` is converted to an `unsigned long` of
`U` bytes, which extends its sign. -/
def premultiplied_pixel (U b0 b1 b2 alpha : Nat) : Nat :=
  let pixel := ((b0 * alpha / 255) <<< 0) ||| ((b1 * alpha / 255) <<< 8) |||
    ((b2 * alpha / 255) <<< 16) ||| ((alpha <<< 24) % 2 ^ 32)
  if pixel < 2 ^ 31 then pixel else pixel + (2 ^ (8 * U) - 2 ^ 32)

/-- The store `*p = pixel` through an `unsigned long *` at offset `i`: `U` bytes, least
significant first. `data` is the memory at the row pointer; a byte behind its end is
not represented and a store to it is dropped. -/
def store_unsigned_long (U : Nat) (data : List Nat) (i pixel : Nat) : List Nat :=
  (List.range U).foldl (fun d j => d.set (i + j) ((pixel >>> (8 * j)) &&& 0xff)) data

/-- One iteration of the loop of `premultiply_data`, at offset `i`. -/
def premultiply_step (U : Nat) (data : List Nat) (i : Nat) : List Nat :=
  let alpha := data.getD (i + 3) 0
  store_unsigned_long U data i
    (premultiplied_pixel U (data.getD i 0) (data.getD (i + 1) 0) (data.getD (i + 2) 0) alpha)

/-- The function `premultiply_data` for `row_info->rowbytes = rowbytes`:
`for (i = 0; i < rowbytes; i += 4)`, that is `i = 4 * k` for every `k` with
`4 * k < rowbytes`. `U` is `sizeof (unsigned long)`. -/
def premultiply_data (U rowbytes : Nat) (data : List Nat) : List Nat :=
  (List.range ((rowbytes + 3) / 4)).foldl (fun d k => premultiply_step U d (4 * k)) data

/-! ## PNG adapters (lines 376-494 and 606-713) -/

/-- The expression `width * height * 4` on `unsigned int` operands. -/
def buffer_size (width height : Nat) : Nat :=
  ((width * height) % 2 ^ 32 * 4) % 2 ^ 32

/-- The part the two PNG adapters share, from `png_create_read_struct` to the end:
`sig_bytes` is what `png_set_sig_bytes` is given and `stream` what libpng then reads.
The `malloc` of `row_pointers` is not checked by the source and not logged. The
rows are stored through `row_pointers`, whose offsets `i * png_width * pixel_size`
are `unsigned int` products like the requested size; `data` lists the bytes stored, in
row order, however many the block holds. -/
def png_decode (w : world) (sig_bytes : Nat) (stream : List Nat) (image : svg_image_t) :
    result :=
  if !w.png_create_read_struct then ⟨SVG_STATUS_NO_MEMORY, image, []⟩
  else if !w.png_create_info_struct then ⟨SVG_STATUS_NO_MEMORY, image, []⟩
  else
    let png := w.png_read sig_bytes stream
    let image := { image with data_width := png.width, data_height := png.height }
    let size := buffer_size png.width png.height
    if !w.malloc size then
      ⟨SVG_STATUS_NO_MEMORY, { image with data := none }, [event.malloc size]⟩
    else
      ⟨SVG_STATUS_SUCCESS,
        { image with data := some (png.rows.map
            (fun row => premultiply_data w.sizeof_unsigned_long row.length row)).flatten },
        [event.malloc size]⟩

/-- The function `_svg_image_read_png_data`; `size` is `fileData.length`. The signature
is checked only `if (size > PNG_SIG_SIZE)`. -/
def _svg_image_read_png_data (w : world) (fileData : List Nat) (image : svg_image_t) :
    result :=
  if fileData.length > 8 && !w.png_check_sig (fileData.take 8) then
    ⟨SVGINT_STATUS_IMAGE_NOT_PNG, image, [event.read_png_data fileData]⟩
  else
    let r := png_decode w 8 (if fileData.length > 8 then fileData.drop 8 else fileData) image
    ⟨r.status, r.image, event.read_png_data fileData :: r.log⟩

/-- The function `_svg_image_read_png`. -/
def _svg_image_read_png (w : world) (filename : List Int) (image : svg_image_t) : result :=
  match w.fopen filename with
  | none => ⟨SVG_STATUS_FILE_NOT_FOUND, image, [event.read_png filename]⟩
  | some contents =>
    let png_sig := contents.take 8
    if !w.png_check_sig png_sig then
      ⟨SVGINT_STATUS_IMAGE_NOT_PNG, image, [event.read_png filename]⟩
    else
      let r := png_decode w png_sig.length (contents.drop png_sig.length) image
      ⟨r.status, r.image, event.read_png filename :: r.log⟩

/-! ## JPEG adapters (lines 496-595 and 715-780) -/

/-- The function `_svg_image_jpeg_error_exit`: the status handed to `longjmp`. -/
def _svg_image_jpeg_error_exit (msg_code : jpeg_msg_code) : svg_status_t :=
  match msg_code with
  | .JERR_NO_SOI => SVGINT_STATUS_IMAGE_NOT_JPEG
  | .other _ => SVG_STATUS_PARSE_ERROR

/-- The inner `for` loop of lines 569-588 / 755-774 for `n` more pixels: `inp` is the
memory at the pointer `in` (a sample behind its end reads as `0`), `out` the bytes
written so far. -/
def jpeg_copy_pixels (num_components : Nat) : Nat → List Nat → List Nat → List Nat
  | 0, _, out => out
  | n + 1, inp, out =>
    let pixel := [inp.getD 2 0, inp.getD 1 0, inp.getD 0 0, 0xff]
    if num_components = 1 then
      jpeg_copy_pixels num_components n (inp.drop 1) (out ++ pixel)
    else
      jpeg_copy_pixels num_components n (inp.drop 3) (out ++ pixel)

/-- The `while (output_scanline < output_height)` loop for `n` more scanlines, from
`output_scanline = line`: the message code of the scanline that raised an error, if
any, and the bytes written to the output buffer. -/
def jpeg_scanlines (run : jpeg_run) (hdr : jpeg_header) :
    Nat → Nat → List Nat → Option Nat × List Nat
  | 0, _, out => (none, out)
  | n + 1, line, out =>
    match run.scanline line with
    | .error code => (some code, out)
    | .ok inp =>
      jpeg_scanlines run hdr n (line + 1)
        (jpeg_copy_pixels hdr.num_components hdr.output_width inp out)

/-- The body the two JPEG adapters share, from `setjmp` on. An `error_exit` returns
through `setjmp` with the status of `_svg_image_jpeg_error_exit`, and whatever was
stored through `data`, `width` and `height` before stays stored. The result of `malloc`
is not checked by the source; the model follows the run in which it is a buffer. The
scanline loop stores four bytes for each of the `output_width * output_height` pixels
behind that pointer, however many the requested block holds. -/
def jpeg_decompress (run : jpeg_run) (image : svg_image_t) : result :=
  match run.header with
  | .error code => ⟨_svg_image_jpeg_error_exit code, image, []⟩
  | .ok hdr =>
    let image := { image with data_width := hdr.output_width,
                              data_height := hdr.output_height }
    match run.alloc_sarray with
    | some code => ⟨_svg_image_jpeg_error_exit (.other code), image, []⟩
    | none =>
      let size := buffer_size hdr.output_width hdr.output_height
      match jpeg_scanlines run hdr hdr.output_height 0 [] with
      | (some code, out) =>
        ⟨_svg_image_jpeg_error_exit (.other code), { image with data := some out },
          [event.malloc size]⟩
      | (none, out) =>
        match run.finish with
        | some code =>
          ⟨_svg_image_jpeg_error_exit (.other code), { image with data := some out },
            [event.malloc size]⟩
        | none => ⟨SVG_STATUS_SUCCESS, { image with data := some out }, [event.malloc size]⟩

/-- The function `_svg_image_read_jpeg_data`. -/
def _svg_image_read_jpeg_data (w : world) (fileData : List Nat) (image : svg_image_t) :
    result :=
  let r := jpeg_decompress (w.jpeg fileData) image
  ⟨r.status, r.image, event.read_jpeg_data fileData :: r.log⟩

/-- The function `_svg_image_read_jpeg`. -/
def _svg_image_read_jpeg (w : world) (filename : List Int) (image : svg_image_t) : result :=
  match w.fopen filename with
  | none => ⟨SVG_STATUS_FILE_NOT_FOUND, image, [event.read_jpeg filename]⟩
  | some contents =>
    let r := jpeg_decompress (w.jpeg contents) image
    ⟨r.status, r.image, event.read_jpeg filename :: r.log⟩

/-! ## `_svg_image_read_image` (lines 190-357) -/

/-- The string `"data:"`. -/
def dataScheme : List Int := [100, 97, 116, 97, 58]

/-- The string `"image/png"`. -/
def image_png : List Int := [105, 109, 97, 103, 101, 47, 112, 110, 103]

/-- The string `"image/jpeg"`. -/
def image_jpeg : List Int := [105, 109, 97, 103, 101, 47, 106, 112, 101, 103]

/-- The string `"base64,"`. -/
def base64_marker : List Int := [98, 97, 115, 101, 54, 52, 44]

/-- Whether `pat` is an initial segment of `s`. -/
def starts_with : List Int → List Int → Bool
  | [], _ => true
  | _ :: _, [] => false
  | p :: ps, c :: cs => p == c && starts_with ps cs

/-- The call `std::string::find (pat)`: the first position at which `pat` occurs. -/
def find (pat : List Int) : List Int → Option Nat
  | [] => if starts_with pat [] then some 0 else none
  | c :: cs =>
    if starts_with pat (c :: cs) then some 0
    else (find pat cs).map (fun k => k + 1)

/-- Lines 199-243: for a reference that begins with `data:`, has a `;` and has the
marker `base64,`, the mime type and the decoded `buf`. -/
def data_url (href : List Int) : Option (List Int × List Nat) :=
  if href.take 5 = dataScheme then
    match find [59] href with
    | none => none
    | some found =>
      let mimeType := if found ≠ 5 then (href.drop 5).take (found - 5) else image_png
      match find base64_marker href with
      | none => none
      | some found => some (mimeType, base64_decode (href.drop (found + 7)))
  else none

/-- Lines 264-277, the block `if(!mimeType.compare("image/jpeg"))`, entered with the
log so far: `some status` is a `return`, `none` leaves the block. -/
def inline_jpeg_block (w : world) (mimeType : List Int) (buf : List Nat)
    (image : svg_image_t) (log : List event) : Option svg_status_t × svg_image_t × List event :=
  if mimeType = image_jpeg then
    let r := _svg_image_read_jpeg_data w buf image
    if r.status = SVG_STATUS_SUCCESS then (some SVG_STATUS_SUCCESS, r.image, log ++ r.log)
    else if r.status ≠ SVGINT_STATUS_IMAGE_NOT_JPEG then (some r.status, r.image, log ++ r.log)
    else (none, r.image, log ++ r.log)
  else (none, image, log)

/-- Lines 245-279, the block `if(size)`: the PNG block (which on a status other than
`0` only rewrites `mimeType` when that status is `SVGINT_STATUS_IMAGE_NOT_PNG`)
followed by the JPEG block. -/
def inline_dispatch (w : world) (mimeType : List Int) (buf : List Nat)
    (image : svg_image_t) : Option svg_status_t × svg_image_t × List event :=
  if mimeType = image_png then
    let r := _svg_image_read_png_data w buf image
    if r.status = SVG_STATUS_SUCCESS then (some SVG_STATUS_SUCCESS, r.image, r.log)
    else
      inline_jpeg_block w
        (if r.status = SVGINT_STATUS_IMAGE_NOT_PNG then image_jpeg else mimeType)
        buf r.image r.log
  else inline_jpeg_block w mimeType buf image []

/-- Lines 287-356: the file-based dispatch on the path made from `image->url`. -/
def file_dispatch (w : world) (image : svg_image_t) (log : List event) : result :=
  let filePath := w.url_to_path image.url
  let r := _svg_image_read_png w filePath image
  if r.status = SVG_STATUS_SUCCESS then ⟨SVG_STATUS_SUCCESS, r.image, log ++ r.log⟩
  else if r.status ≠ SVGINT_STATUS_IMAGE_NOT_PNG then ⟨r.status, r.image, log ++ r.log⟩
  else
    let r2 := _svg_image_read_jpeg w filePath r.image
    if r2.status = SVG_STATUS_SUCCESS then
      ⟨SVG_STATUS_SUCCESS, r2.image, log ++ r.log ++ r2.log⟩
    else if r2.status ≠ SVGINT_STATUS_IMAGE_NOT_JPEG then
      ⟨r2.status, r2.image, log ++ r.log ++ r2.log⟩
    else ⟨SVG_STATUS_PARSE_ERROR, r2.image, log ++ r.log ++ r2.log⟩

/-- The function `_svg_image_read_image`. -/
def _svg_image_read_image (w : world) (image : svg_image_t) : result :=
  if image.data.isSome then ⟨SVG_STATUS_SUCCESS, image, []⟩
  else
    match data_url image.url with
    | none => file_dispatch w image []
    | some (mimeType, buf) =>
      if buf.length = 0 then file_dispatch w image []
      else
        match inline_dispatch w mimeType buf image with
        | (some status, image1, log) => ⟨status, image1, log⟩
        | (none, image1, log) => file_dispatch w image1 log

/-! ## `_svg_image_render` (lines 151-177) -/

/-- The function `_svg_image_render`, for the engine callback `w.render_image`. -/
def _svg_image_render (w : world) (image : svg_image_t) : result :=
  if image.width.value = 0 ∨ image.height.value = 0 then ⟨SVG_STATUS_SUCCESS, image, []⟩
  else
    let r := _svg_image_read_image w image
    if r.status ≠ SVG_STATUS_SUCCESS then r
    else
      let img := r.image
      ⟨w.render_image img.data img.data_width img.data_height img.x img.y img.width img.height,
        img,
        r.log ++ [event.render_image img.data img.data_width img.data_height
          img.x img.y img.width img.height]⟩

/-! ## The alphabet in the words of the specification -/

/-- The standard base64 alphabet as the specification spells it: `A-Z`, `a-z`, `0-9`,
`+` and `/`. -/
def standard_alphabet (c : Int) : Bool :=
  (65 ≤ c && c ≤ 90) || (97 ≤ c && c ≤ 122) || (48 ≤ c && c ≤ 57) || c == 43 || c == 47

/-! ## Concrete inputs for the evaluated examples -/

/-- The `char` values of an ASCII literal. -/
def cstr (s : String) : List Int :=
  s.toList.map (fun ch => Int.ofNat ch.toNat)

/-- The eight bytes of the PNG signature. -/
def png_signature : List Nat := [137, 80, 78, 71, 13, 10, 26, 10]

/-- The libpng test `png_check_sig`: at least one byte, all equal to the signature. -/
def png_sig_ok (sig : List Nat) : Bool :=
  decide (sig.length > 0) && sig == png_signature.take sig.length

/-- A length in user units with the given value. -/
def px (value : Int) : svg_length_t := ⟨value, 0, 0⟩

/-- A node as `_svg_image_apply_attributes` leaves it: a 10 by 10 area, the given
reference and no pixel buffer. -/
def node (url : List Int) : svg_image_t :=
  ⟨url, px 0, px 0, px 10, px 10, none, 0, 0⟩

/-- A platform without files, on which every PNG stream holds one half-transparent
pixel and no source is a JPEG. -/
def plain_world : world where
  sizeof_unsigned_long := 4
  url_to_path := fun url => url
  fopen := fun _ => none
  png_check_sig := png_sig_ok
  png_create_read_struct := true
  png_create_info_struct := true
  png_read := fun _ _ => ⟨1, 1, [[200, 100, 50, 128]]⟩
  malloc := fun _ => true
  jpeg := fun _ => ⟨.error .JERR_NO_SOI, none, fun _ => .ok [], none⟩
  render_image := fun _ _ _ _ _ _ _ => SVG_STATUS_SUCCESS

/-- The platform `plain_world` with libpng reporting an image of 30000 by 30000
pixels and `malloc` returning NULL for a request of 2 GiB or more. -/
def no_memory_world : world :=
  { plain_world with
    png_read := fun _ _ => ⟨30000, 30000, List.replicate 30000 (List.replicate 120000 0)⟩
    malloc := fun n => decide (n < 2 ^ 31) }

/-- The reference `data:image/png;base64,iVBORw0KGgoAAAAN`: the PNG signature and four
more bytes. -/
def png_reference : List Int :=
  dataScheme ++ image_png ++ [59] ++ base64_marker ++ cstr "iVBORw0KGgoAAAAN"

/-- Alpha premultiplication as the specification states it: per pixel of four bytes
(blue, green, red, alpha) each colour byte becomes `floor (channel * alpha / 255)` and
alpha passes through. -/
def premultiplied_row : List Nat → List Nat
  | b :: g :: r :: a :: rest =>
    (b * a / 255) :: (g * a / 255) :: (r * a / 255) :: a :: premultiplied_row rest
  | rest => rest

/-- The platform `plain_world` with libjpeg decoding every source to one pixel with the
samples 10, 20, 30. -/
def jpeg_world : world :=
  { plain_world with
    jpeg := fun _ => ⟨.ok ⟨1, 1, 3⟩, none, fun _ => .ok [10, 20, 30], none⟩ }

/-- The platform `plain_world` with libjpeg reading a header of 2 by 2 pixels and the
first scanline, and raising an error (message code 0) on the second scanline. -/
def broken_jpeg_world : world :=
  { plain_world with
    jpeg := fun _ =>
      ⟨.ok ⟨2, 2, 3⟩, none,
       fun k => if k = 0 then .ok [1, 2, 3, 4, 5, 6] else .error 0, none⟩ }

/-- The platform `plain_world` with libpng reporting an image of 65536 by 16385
pixels, every row 262144 bytes of zeros. -/
def wide_png_world : world :=
  { plain_world with
    png_read := fun _ _ => ⟨65536, 16385, List.replicate 16385 (List.replicate 262144 0)⟩ }

/-- The platform `plain_world` with libjpeg decoding every source to an image of 32768
by 32769 pixels, every scanline 98304 samples of zero. -/
def wide_jpeg_world : world :=
  { plain_world with
    jpeg := fun _ =>
      ⟨.ok ⟨32768, 32769, 3⟩, none, fun _ => .ok (List.replicate 98304 0), none⟩ }

/-- The platform `jpeg_world` with a twelve-byte file, the PNG signature first, behind
every path. -/
def image_file_world : world :=
  { jpeg_world with fopen := fun _ => some (png_signature ++ [0, 0, 0, 13]) }

/-- The reference `data:image/jpeg;base64,/9j/2Q==`: the bytes FF D8 FF D9. -/
def jpeg_reference : List Int :=
  dataScheme ++ image_jpeg ++ [59] ++ base64_marker ++ cstr "/9j/2Q=="

/-- Two nodes with the same reference and geometry: everything but the three fields
the decoders write through `data`, `width` and `height`. -/
def same_node (a b : svg_image_t) : Prop :=
  a.url = b.url ∧ a.x = b.x ∧ a.y = b.y ∧ a.width = b.width ∧ a.height = b.height

/-! ## The RFC 4648 encoding, the reference for the decode loop -/

/-- The 64 characters of the standard alphabet in the order of their values: `A-Z`,
`a-z`, `0-9`, `+`, `/`. -/
def base64_alphabet : List Int :=
  cstr "ABCDEFGHIJKLMNOPQRSTUVWXYZabcdefghijklmnopqrstuvwxyz0123456789+/"

/-- The character that encodes the 6-bit value `n`. -/
def base64_char (n : Nat) : Int :=
  base64_alphabet.getD n 0

/-- The standard base64 encoding of RFC 4648 with `=` padding: three bytes give four
characters; a last group of one byte gives two characters and `==`, a last group of two
bytes three characters and `=`. -/
def rfc4648_encode : List Nat → List Int
  | [] => []
  | [a] => [base64_char (a / 4), base64_char (a % 4 * 16), 61, 61]
  | [a, b] =>
    [base64_char (a / 4), base64_char (a % 4 * 16 + b / 16), base64_char (b % 16 * 4), 61]
  | a :: b :: c :: rest =>
    base64_char (a / 4) :: base64_char (a % 4 * 16 + b / 16) ::
      base64_char (b % 16 * 4 + c / 64) :: base64_char (c % 64) :: rfc4648_encode rest

/-- A node with the given width and height values and an inline PNG reference. -/
def sized_node (width height : Int) : svg_image_t :=
  ⟨png_reference, px 0, px 0, px width, px height, none, 0, 0⟩

end SvgImage

/-! # Theorems -/

namespace SvgImage

open svg_status_t

/-! ## Base64 -/

theorem base64_loop_filter (s : List Int) (bits acc : Nat) (buf : List Nat) :
    base64_loop s bits acc buf
      = base64_loop (s.filter (fun c => !skipped c)) bits acc buf := by
  induction s generalizing bits acc buf with
  | nil => rfl
  | cons c rest ih =>
    by_cases hs : skipped c = true
    · simp only [List.filter, hs, Bool.not_true]
      rw [base64_loop]
      simp only [hs, if_true]
      exact ih bits acc buf
    · have hs2 : skipped c = false := by simpa using hs
      simp only [List.filter, hs2, Bool.not_false]
      rw [base64_loop, base64_loop]
      simp only [hs2, Bool.false_eq_true, if_false]
      split_ifs
      · rfl
      · exact ih _ _ _
      · exact ih _ _ _

theorem base64_loop_illegal (s : List Int) (bits acc : Nat) (buf : List Nat)
    (h : ∃ c ∈ s, skipped c = false ∧ illegal c = true) :
    base64_loop s bits acc buf = [] := by
  induction s generalizing bits acc buf with
  | nil => obtain ⟨c, hc, _⟩ := h; cases hc
  | cons d rest ih =>
    rw [base64_loop]
    by_cases hs : skipped d = true
    · simp only [hs, if_true]
      apply ih
      obtain ⟨c, hc, hsk, hil⟩ := h
      rcases List.mem_cons.mp hc with rfl | hmem
      · rw [hs] at hsk; cases hsk
      · exact ⟨c, hmem, hsk, hil⟩
    · have hs2 : skipped d = false := by simpa using hs
      simp only [hs2, Bool.false_eq_true, if_false]
      by_cases hi : illegal d = true
      · simp only [hi, if_true]
      · have hrest : ∃ c ∈ rest, skipped c = false ∧ illegal c = true := by
          obtain ⟨c, hc, hsk, hil⟩ := h
          rcases List.mem_cons.mp hc with rfl | hmem
          · exact absurd hil hi
          · exact ⟨c, hmem, hsk, hil⟩
        split_ifs
        · exact ih _ _ _ hrest
        · exact ih _ _ _ hrest

/-- A character outside the alphabet of the specification is one the loop rejects. -/
theorem illegal_of_not_standard (c : Int) (h : standard_alphabet c = false) :
    illegal c = true := by
  by_cases h0 : c < 0
  · simp [illegal, h0]
  by_cases h1 : c > 127
  · simp [illegal, h1]
  obtain ⟨n, rfl⟩ : ∃ n : Nat, c = (n : Int) := ⟨c.toNat, by omega⟩
  have hn : n < 128 := by omega
  clear h0 h1
  interval_cases n <;> first | (exact absurd h (by decide)) | decide

/-- C3: the bytes the inline base64 loop produces on a payload are the bytes it
produces on the payload with every whitespace character and every `=` removed. -/
theorem C3_skipped_characters_removed (s : List Int) :
    base64_decode s = base64_decode (s.filter (fun c => !(isspace c || c == 61))) := by
  have h := base64_loop_filter s 0 0 []
  simpa [base64_decode, skipped] using h

/-- C4: a payload holding a character that is not whitespace, not `=` and not in the
standard base64 alphabet (a byte outside 0..127 included) decodes to the empty byte
sequence, whatever precedes or follows that character. -/
theorem C4_illegal_character_empties_output (s : List Int)
    (h : ∃ c ∈ s, isspace c = false ∧ c ≠ 61 ∧ standard_alphabet c = false) :
    base64_decode s = [] := by
  obtain ⟨c, hc, hsp, heq, hst⟩ := h
  refine base64_loop_illegal s 0 0 [] ⟨c, hc, ?_, illegal_of_not_standard c hst⟩
  simp [skipped, hsp, heq]

/-- C4 at the payload `QUJD!QUJD` and at a payload with the byte `0xE9` (a negative
`char`) after four valid symbols. -/
theorem C4_illegal_character_empties_output_witness :
    (∃ c ∈ cstr "QUJD!QUJD", isspace c = false ∧ c ≠ 61 ∧ standard_alphabet c = false) ∧
    base64_decode (cstr "QUJD!QUJD") = [] ∧
    base64_decode (cstr "QUJD" ++ [-23] ++ cstr "QUJD") = [] :=
  ⟨⟨33, by decide, by decide, by decide, by decide⟩,
   C4_illegal_character_empties_output (cstr "QUJD!QUJD")
     ⟨33, by decide, by decide, by decide, by decide⟩,
   C4_illegal_character_empties_output (cstr "QUJD" ++ [-23] ++ cstr "QUJD")
     ⟨-23, by decide, by decide, by decide, by decide⟩⟩

/-! ## Dispatch -/

theorem png_decode_status (w : world) (n : Nat) (stream : List Nat) (image : svg_image_t) :
    (png_decode w n stream image).status = SVG_STATUS_NO_MEMORY ∨
    (png_decode w n stream image).status = SVG_STATUS_SUCCESS := by
  unfold png_decode
  dsimp only
  split_ifs <;> simp

theorem read_png_data_not_png (w : world) (fileData : List Nat) (image : svg_image_t)
    (h : (_svg_image_read_png_data w fileData image).status = SVGINT_STATUS_IMAGE_NOT_PNG) :
    (_svg_image_read_png_data w fileData image).image = image := by
  unfold _svg_image_read_png_data at h ⊢
  dsimp only at h ⊢
  split_ifs at h ⊢
  · rfl
  · exfalso
    rcases png_decode_status w 8 (fileData.drop 8) image with h1 | h1 <;> simp [h1] at h
  · exfalso
    rcases png_decode_status w 8 fileData image with h1 | h1 <;> simp [h1] at h

theorem jpeg_decompress_not_jpeg (run : jpeg_run) (image : svg_image_t)
    (h : (jpeg_decompress run image).status = SVGINT_STATUS_IMAGE_NOT_JPEG) :
    (jpeg_decompress run image).image = image := by
  unfold jpeg_decompress at h ⊢
  split
  · rfl
  · rename_i hdr hh
    simp only [hh] at h
    split at h
    · simp [_svg_image_jpeg_error_exit] at h
    · split at h
      · simp [_svg_image_jpeg_error_exit] at h
      · split at h <;> simp [_svg_image_jpeg_error_exit] at h

theorem read_jpeg_data_not_jpeg (w : world) (fileData : List Nat) (image : svg_image_t)
    (h : (_svg_image_read_jpeg_data w fileData image).status = SVGINT_STATUS_IMAGE_NOT_JPEG) :
    (_svg_image_read_jpeg_data w fileData image).image = image :=
  jpeg_decompress_not_jpeg (w.jpeg fileData) image h

theorem inline_jpeg_block_reject (w : world) (mimeType : List Int) (buf : List Nat)
    (image : svg_image_t) (log : List event)
    (hjpg : mimeType = image_jpeg →
      (_svg_image_read_jpeg_data w buf image).status = SVGINT_STATUS_IMAGE_NOT_JPEG) :
    ∃ log1, inline_jpeg_block w mimeType buf image log = (none, image, log1) := by
  unfold inline_jpeg_block
  by_cases hm : mimeType = image_jpeg
  · have h1 := hjpg hm
    have h2 := read_jpeg_data_not_jpeg w buf image h1
    simp [hm, h1, h2]
  · simp [hm]

theorem inline_dispatch_reject (w : world) (mimeType : List Int) (buf : List Nat)
    (image : svg_image_t)
    (hpng : mimeType = image_png →
      (_svg_image_read_png_data w buf image).status = SVGINT_STATUS_IMAGE_NOT_PNG)
    (hjpg : mimeType = image_png ∨ mimeType = image_jpeg →
      (_svg_image_read_jpeg_data w buf image).status = SVGINT_STATUS_IMAGE_NOT_JPEG) :
    ∃ log1, inline_dispatch w mimeType buf image = (none, image, log1) := by
  unfold inline_dispatch
  by_cases hm : mimeType = image_png
  · have h1 := hpng hm
    have h2 := read_png_data_not_png w buf image h1
    simp only [hm, if_true, h1, h2]
    simp only [reduceCtorEq, if_false]
    exact inline_jpeg_block_reject w image_jpeg buf image _ (fun _ => hjpg (Or.inl hm))
  · simp only [hm, if_false]
    exact inline_jpeg_block_reject w mimeType buf image _ (fun h => hjpg (Or.inr h))

/-- C1, evaluated on `data:image/png;base64,iVBORw0KGgoAAAAN` when the pixel buffer
(3600000000 bytes) cannot be allocated: the inline PNG decoder returns the hard error
`SVG_STATUS_NO_MEMORY`, and `_svg_image_read_image` goes on to the file-based PNG
decoder and returns that one's `SVG_STATUS_FILE_NOT_FOUND`. -/
theorem C1_inline_png_hard_error_falls_through :
    base64_decode (cstr "iVBORw0KGgoAAAAN") = png_signature ++ [0, 0, 0, 13] ∧
    (_svg_image_read_png_data no_memory_world (png_signature ++ [0, 0, 0, 13])
      (node png_reference)).status = SVG_STATUS_NO_MEMORY ∧
    (_svg_image_read_image no_memory_world (node png_reference)).status
      = SVG_STATUS_FILE_NOT_FOUND ∧
    (_svg_image_read_image no_memory_world (node png_reference)).log
      = [event.read_png_data (png_signature ++ [0, 0, 0, 13]), event.malloc 3600000000,
         event.read_png png_reference] := by
  decide

theorem pixel_bits (x y z a : Nat) (hx : x < 256) (hy : y < 256) (hz : z < 256)
    (ha : a < 256) :
    (x <<< 0) ||| (y <<< 8) ||| (z <<< 16) ||| ((a <<< 24) % 2 ^ 32)
      = x + 256 * y + 65536 * z + 16777216 * a := by
  have h1 : 2 ^ 8 * y + x = 2 ^ 8 * y ||| x := Nat.mul_add_lt_is_or (by omega) y
  have h2 : 2 ^ 16 * z + (x + 256 * y) = 2 ^ 16 * z ||| (x + 256 * y) :=
    Nat.mul_add_lt_is_or (by omega) z
  have h3 : 2 ^ 24 * a + (x + 256 * y + 65536 * z)
      = 2 ^ 24 * a ||| (x + 256 * y + 65536 * z) := Nat.mul_add_lt_is_or (by omega) a
  simp only [Nat.shiftLeft_eq, Nat.pow_zero, Nat.mul_one]
  have e1 : x ||| y * 2 ^ 8 = x + 256 * y := by
    rw [Nat.lor_comm, Nat.mul_comm, ← h1]; omega
  have e3 : a * 2 ^ 24 % 2 ^ 32 = a * 2 ^ 24 := Nat.mod_eq_of_lt (by omega)
  rw [e1, e3]
  have e2 : (x + 256 * y) ||| z * 2 ^ 16 = x + 256 * y + 65536 * z := by
    rw [Nat.lor_comm, Nat.mul_comm, ← h2]; omega
  rw [e2, Nat.lor_comm, Nat.mul_comm, ← h3]; omega

theorem and_255 (x : Nat) : x &&& 255 = x % 2 ^ 8 :=
  Nat.and_pow_two_sub_one_eq_mod x 8

theorem scaled_lt (c a : Nat) (hc : c < 256) (ha : a < 256) : c * a / 255 < 256 := by
  have h : c * a ≤ 255 * 255 := Nat.mul_le_mul (by omega) (by omega)
  omega

/-- With a 4-byte `unsigned long` the stored word is the four bytes of the pixel. -/
theorem premultiplied_pixel_four (b0 b1 b2 a : Nat) (h0 : b0 < 256) (h1 : b1 < 256)
    (h2 : b2 < 256) (ha : a < 256) :
    premultiplied_pixel 4 b0 b1 b2 a
      = b0 * a / 255 + 256 * (b1 * a / 255) + 65536 * (b2 * a / 255) + 16777216 * a := by
  unfold premultiplied_pixel
  simp only [pixel_bits _ _ _ _ (scaled_lt b0 a h0 ha) (scaled_lt b1 a h1 ha)
    (scaled_lt b2 a h2 ha) ha]
  split_ifs <;> simp

theorem premultiply_step_zero (b0 b1 b2 a : Nat) (t : List Nat) (h0 : b0 < 256)
    (h1 : b1 < 256) (h2 : b2 < 256) (ha : a < 256) :
    premultiply_step 4 (b0 :: b1 :: b2 :: a :: t) 0
      = (b0 * a / 255) :: (b1 * a / 255) :: (b2 * a / 255) :: a :: t := by
  have hr : List.range 4 = [0, 1, 2, 3] := by decide
  have s0 := scaled_lt b0 a h0 ha
  have s1 := scaled_lt b1 a h1 ha
  have s2 := scaled_lt b2 a h2 ha
  unfold premultiply_step store_unsigned_long
  simp only [List.getD_cons_zero, List.getD_cons_succ, Nat.zero_add, hr, List.foldl_cons,
    List.foldl_nil, List.set_cons_zero, List.set_cons_succ,
    premultiplied_pixel_four b0 b1 b2 a h0 h1 h2 ha, Nat.shiftRight_eq_div_pow]
  simp only [and_255]
  have e0 : (b0 * a / 255 + 256 * (b1 * a / 255) + 65536 * (b2 * a / 255) + 16777216 * a)
      / 2 ^ (8 * 0) % 2 ^ 8 = b0 * a / 255 := by norm_num; omega
  have e1 : (b0 * a / 255 + 256 * (b1 * a / 255) + 65536 * (b2 * a / 255) + 16777216 * a)
      / 2 ^ (8 * 1) % 2 ^ 8 = b1 * a / 255 := by norm_num; omega
  have e2 : (b0 * a / 255 + 256 * (b1 * a / 255) + 65536 * (b2 * a / 255) + 16777216 * a)
      / 2 ^ (8 * 2) % 2 ^ 8 = b2 * a / 255 := by norm_num; omega
  have e3 : (b0 * a / 255 + 256 * (b1 * a / 255) + 65536 * (b2 * a / 255) + 16777216 * a)
      / 2 ^ (8 * 3) % 2 ^ 8 = a := by norm_num; omega
  rw [e0, e1, e2, e3]

theorem store_shift (U : Nat) (p0 p1 p2 p3 : Nat) (t : List Nat) (i v : Nat) :
    store_unsigned_long U (p0 :: p1 :: p2 :: p3 :: t) (i + 4) v
      = p0 :: p1 :: p2 :: p3 :: store_unsigned_long U t i v := by
  unfold store_unsigned_long
  generalize List.range U = l
  induction l generalizing t with
  | nil => rfl
  | cons j l ih =>
    simp only [List.foldl_cons]
    have e : i + 4 + j = (i + j) + 1 + 1 + 1 + 1 := by omega
    rw [e]
    simp only [List.set_cons_succ]
    exact ih _

theorem premultiply_step_shift (U : Nat) (p0 p1 p2 p3 : Nat) (t : List Nat) (k : Nat) :
    premultiply_step U (p0 :: p1 :: p2 :: p3 :: t) (4 * (k + 1))
      = p0 :: p1 :: p2 :: p3 :: premultiply_step U t (4 * k) := by
  have e : 4 * (k + 1) = 4 * k + 4 := by omega
  have g : ∀ j, (p0 :: p1 :: p2 :: p3 :: t).getD (4 * k + 4 + j) 0 = t.getD (4 * k + j) 0 := by
    intro j
    have e2 : 4 * k + 4 + j = (4 * k + j) + 1 + 1 + 1 + 1 := by omega
    rw [e2]
    simp only [List.getD_cons_succ]
  unfold premultiply_step
  rw [e]
  have g0 := g 0
  simp only [Nat.add_zero] at g0
  simp only [g, g0]
  exact store_shift U p0 p1 p2 p3 t (4 * k) _

theorem premultiply_fold_shift (U : Nat) (p0 p1 p2 p3 : Nat) (t : List Nat) (l : List Nat) :
    (l.map Nat.succ).foldl (fun d k => premultiply_step U d (4 * k)) (p0 :: p1 :: p2 :: p3 :: t)
      = p0 :: p1 :: p2 :: p3 :: l.foldl (fun d k => premultiply_step U d (4 * k)) t := by
  induction l generalizing t with
  | nil => rfl
  | cons k l ih =>
    simp only [List.map_cons, List.foldl_cons, Nat.succ_eq_add_one, premultiply_step_shift]
    exact ih _

/-- With a 4-byte `unsigned long`, `premultiply_data` on a row of `n` pixels followed by
any memory `behind` transforms the row as the specification says and leaves `behind`
as it was. -/
theorem premultiply_data_four_byte_long (n : Nat) (row behind : List Nat)
    (hlen : row.length = 4 * n) (hbytes : ∀ x ∈ row, x < 256) :
    premultiply_data 4 (4 * n) (row ++ behind) = premultiplied_row row ++ behind := by
  induction n generalizing row with
  | zero =>
    have : row = [] := List.length_eq_zero.mp (by omega)
    subst this
    rfl
  | succ n ih =>
    match row, hlen, hbytes with
    | b0 :: b1 :: b2 :: a :: rest, hlen, hbytes =>
      have hl : rest.length = 4 * n := by simp only [List.length_cons] at hlen; omega
      have h0 : b0 < 256 := hbytes b0 (by simp)
      have h1 : b1 < 256 := hbytes b1 (by simp)
      have h2 : b2 < 256 := hbytes b2 (by simp)
      have ha : a < 256 := hbytes a (by simp)
      have hrest : ∀ x ∈ rest, x < 256 := fun x hx => hbytes x (by simp [hx])
      have hcount : (4 * (n + 1) + 3) / 4 = n + 1 := by omega
      have hcount2 : (4 * n + 3) / 4 = n := by omega
      have ih2 := ih rest hl hrest
      unfold premultiply_data at ih2 ⊢
      rw [hcount2] at ih2
      rw [hcount, List.range_succ_eq_map]
      simp only [List.cons_append, List.foldl_cons, Nat.mul_zero,
        premultiply_step_zero b0 b1 b2 a _ h0 h1 h2 ha, premultiply_fold_shift, ih2,
        premultiplied_row]
    | [], hlen, _ =>
      exfalso
      simp only [List.length_cons, List.length_nil] at hlen
      omega
    | [_], hlen, _ =>
      exfalso
      simp only [List.length_cons, List.length_nil] at hlen
      omega
    | [_, _], hlen, _ =>
      exfalso
      simp only [List.length_cons, List.length_nil] at hlen
      omega
    | [_, _, _], hlen, _ =>
      exfalso
      simp only [List.length_cons, List.length_nil] at hlen
      omega

/-- C5, evaluated where `unsigned long` has 8 bytes (LP64, the build of the
non-`_WIN32` branch): on the row of two pixels (200, 200, 200, 128), (10, 20, 30, 40)
followed by the bytes 1, 2, 3, 4, the store of the first pixel also writes the four
bytes of the second, which therefore comes out as (255, 255, 255, 255) and not as
(1, 3, 4, 40), and the store of the second pixel writes the four bytes behind the row.
With a 4-byte `unsigned long` the same row is transformed as the claim says. -/
theorem C5_premultiply_eight_byte_long :
    premultiply_data 8 8 [200, 200, 200, 128, 10, 20, 30, 40, 1, 2, 3, 4]
      = [100, 100, 100, 128, 255, 255, 255, 255, 255, 255, 255, 255] ∧
    premultiplied_row [200, 200, 200, 128, 10, 20, 30, 40] ++ [1, 2, 3, 4]
      = [100, 100, 100, 128, 1, 3, 4, 40, 1, 2, 3, 4] ∧
    premultiply_data 4 8 [200, 200, 200, 128, 10, 20, 30, 40, 1, 2, 3, 4]
      = [100, 100, 100, 128, 1, 3, 4, 40, 1, 2, 3, 4] := by
  decide

/-! ## JPEG pixel copy -/

/-- C6, evaluated on the grayscale scanline 10, 20, 30 (`num_components = 1`, width 3):
pixel 0 is written as (30, 20, 10, 255) and not as (10, 10, 10, 255), because `case 1`
copies `in[1]` and `in[2]` as well; for the last pixels these are the samples at
index 3 and 4, behind the scanline (77 and 88 in the second run, absent in the
first). -/
theorem C6_grayscale_copies_neighbours :
    jpeg_copy_pixels 1 3 [10, 20, 30] []
      = [30, 20, 10, 255, 0, 30, 20, 255, 0, 0, 30, 255] ∧
    jpeg_copy_pixels 1 3 [10, 20, 30, 77, 88] []
      = [30, 20, 10, 255, 77, 30, 20, 255, 88, 77, 30, 255] := by
  decide

/-! ## What the decoders leave in the node -/

theorem same_node_refl (a : svg_image_t) : same_node a a :=
  ⟨rfl, rfl, rfl, rfl, rfl⟩

theorem same_node_trans {a b c : svg_image_t} (h1 : same_node a b) (h2 : same_node b c) :
    same_node a c :=
  ⟨h1.1.trans h2.1, h1.2.1.trans h2.2.1, h1.2.2.1.trans h2.2.2.1,
    h1.2.2.2.1.trans h2.2.2.2.1, h1.2.2.2.2.trans h2.2.2.2.2⟩

theorem png_decode_frame (w : world) (n : Nat) (stream : List Nat) (image : svg_image_t) :
    same_node image (png_decode w n stream image).image ∧
    ((png_decode w n stream image).status = SVG_STATUS_SUCCESS →
      (png_decode w n stream image).image.data.isSome = true ∧
      (png_decode w n stream image).log
        = [event.malloc (buffer_size (png_decode w n stream image).image.data_width
            (png_decode w n stream image).image.data_height)]) := by
  unfold png_decode
  dsimp only
  split_ifs <;> simp [same_node]

theorem jpeg_decompress_frame (run : jpeg_run) (image : svg_image_t) :
    same_node image (jpeg_decompress run image).image ∧
    ((jpeg_decompress run image).status = SVG_STATUS_SUCCESS →
      (jpeg_decompress run image).image.data.isSome = true ∧
      (jpeg_decompress run image).log
        = [event.malloc (buffer_size (jpeg_decompress run image).image.data_width
            (jpeg_decompress run image).image.data_height)]) := by
  unfold jpeg_decompress
  split
  · rename_i code _
    cases code <;> simp [same_node, _svg_image_jpeg_error_exit]
  · dsimp only
    split
    · simp [same_node, _svg_image_jpeg_error_exit]
    · split
      · simp [same_node, _svg_image_jpeg_error_exit]
      · split <;> simp [same_node, _svg_image_jpeg_error_exit]

theorem jpeg_decompress_log (run : jpeg_run) (image : svg_image_t) :
    ∀ e ∈ (jpeg_decompress run image).log, e.is_decoder = false := by
  unfold jpeg_decompress
  split
  · simp
  · dsimp only
    split
    · simp
    · split
      · simp [event.is_decoder]
      · split <;> simp [event.is_decoder]

theorem read_png_data_frame (w : world) (fileData : List Nat) (image : svg_image_t) :
    same_node image (_svg_image_read_png_data w fileData image).image ∧
    ((_svg_image_read_png_data w fileData image).status = SVG_STATUS_SUCCESS →
      (_svg_image_read_png_data w fileData image).image.data.isSome = true) := by
  unfold _svg_image_read_png_data
  dsimp only
  split_ifs
  · simp [same_node]
  · exact ⟨(png_decode_frame w 8 _ image).1, fun h => ((png_decode_frame w 8 _ image).2 h).1⟩
  · exact ⟨(png_decode_frame w 8 _ image).1, fun h => ((png_decode_frame w 8 _ image).2 h).1⟩

theorem read_png_frame (w : world) (filename : List Int) (image : svg_image_t) :
    same_node image (_svg_image_read_png w filename image).image ∧
    ((_svg_image_read_png w filename image).status = SVG_STATUS_SUCCESS →
      (_svg_image_read_png w filename image).image.data.isSome = true) := by
  unfold _svg_image_read_png
  split
  · simp [same_node]
  · dsimp only
    split_ifs
    · simp [same_node]
    · exact ⟨(png_decode_frame w _ _ image).1, fun h => ((png_decode_frame w _ _ image).2 h).1⟩

theorem read_jpeg_data_frame (w : world) (fileData : List Nat) (image : svg_image_t) :
    same_node image (_svg_image_read_jpeg_data w fileData image).image ∧
    ((_svg_image_read_jpeg_data w fileData image).status = SVG_STATUS_SUCCESS →
      (_svg_image_read_jpeg_data w fileData image).image.data.isSome = true) :=
  ⟨(jpeg_decompress_frame (w.jpeg fileData) image).1,
    fun h => ((jpeg_decompress_frame (w.jpeg fileData) image).2 h).1⟩

theorem read_jpeg_frame (w : world) (filename : List Int) (image : svg_image_t) :
    same_node image (_svg_image_read_jpeg w filename image).image ∧
    ((_svg_image_read_jpeg w filename image).status = SVG_STATUS_SUCCESS →
      (_svg_image_read_jpeg w filename image).image.data.isSome = true) := by
  unfold _svg_image_read_jpeg
  split
  · simp [same_node]
  · rename_i contents _
    exact ⟨(jpeg_decompress_frame (w.jpeg contents) image).1,
      fun h => ((jpeg_decompress_frame (w.jpeg contents) image).2 h).1⟩

theorem file_dispatch_frame (w : world) (image : svg_image_t) (log : List event) :
    same_node image (file_dispatch w image log).image ∧
    ((file_dispatch w image log).status = SVG_STATUS_SUCCESS →
      (file_dispatch w image log).image.data.isSome = true) := by
  have p := read_png_frame w (w.url_to_path image.url) image
  have j := read_jpeg_frame w (w.url_to_path image.url)
    (_svg_image_read_png w (w.url_to_path image.url) image).image
  unfold file_dispatch
  dsimp only
  split_ifs with h1 h2 h3 h4
  · exact ⟨p.1, fun _ => p.2 h1⟩
  · exact ⟨p.1, fun h => absurd h h1⟩
  · exact ⟨same_node_trans p.1 j.1, fun _ => j.2 h3⟩
  · exact ⟨same_node_trans p.1 j.1, fun h => absurd h h3⟩
  · exact ⟨same_node_trans p.1 j.1, fun h => by cases h⟩

theorem inline_jpeg_block_frame (w : world) (mimeType : List Int) (buf : List Nat)
    (image : svg_image_t) (log : List event) :
    same_node image (inline_jpeg_block w mimeType buf image log).2.1 ∧
    ((inline_jpeg_block w mimeType buf image log).1 = some SVG_STATUS_SUCCESS →
      (inline_jpeg_block w mimeType buf image log).2.1.data.isSome = true) := by
  have j := read_jpeg_data_frame w buf image
  unfold inline_jpeg_block
  dsimp only
  split_ifs with h1 h2 h3
  · exact ⟨j.1, fun _ => j.2 h2⟩
  · exact ⟨j.1, fun h => absurd (Option.some.inj h) h2⟩
  · exact ⟨j.1, fun h => by cases h⟩
  · exact ⟨same_node_refl image, fun h => by cases h⟩

theorem inline_dispatch_frame (w : world) (mimeType : List Int) (buf : List Nat)
    (image : svg_image_t) :
    same_node image (inline_dispatch w mimeType buf image).2.1 ∧
    ((inline_dispatch w mimeType buf image).1 = some SVG_STATUS_SUCCESS →
      (inline_dispatch w mimeType buf image).2.1.data.isSome = true) := by
  have p := read_png_data_frame w buf image
  unfold inline_dispatch
  dsimp only
  by_cases h1 : mimeType = image_png
  · rw [if_pos h1]
    by_cases h2 : (_svg_image_read_png_data w buf image).status = SVG_STATUS_SUCCESS
    · rw [if_pos h2]
      exact ⟨p.1, fun _ => p.2 h2⟩
    · rw [if_neg h2]
      have j := inline_jpeg_block_frame w
        (if (_svg_image_read_png_data w buf image).status = SVGINT_STATUS_IMAGE_NOT_PNG
          then image_jpeg else mimeType) buf (_svg_image_read_png_data w buf image).image
        (_svg_image_read_png_data w buf image).log
      exact ⟨same_node_trans p.1 j.1, j.2⟩
  · rw [if_neg h1]
    exact inline_jpeg_block_frame w mimeType buf image []

/-- Whatever `_svg_image_read_image` does, it keeps the reference and the geometry of
the node, and when it returns success the node has a pixel buffer. -/
theorem read_image_frame (w : world) (image : svg_image_t) :
    same_node image (_svg_image_read_image w image).image ∧
    ((_svg_image_read_image w image).status = SVG_STATUS_SUCCESS →
      (_svg_image_read_image w image).image.data.isSome = true) := by
  unfold _svg_image_read_image
  split_ifs with h0
  · exact ⟨same_node_refl image, fun _ => h0⟩
  · split
    · exact file_dispatch_frame w image []
    · rename_i mimeType buf _
      split_ifs
      · exact file_dispatch_frame w image []
      · have i := inline_dispatch_frame w mimeType buf image
        split
        · rename_i status image1 log heq
          rw [heq] at i
          exact ⟨i.1, fun h => i.2 (by simpa using h)⟩
        · rename_i image1 log heq
          rw [heq] at i
          have f := file_dispatch_frame w image1 log
          exact ⟨same_node_trans i.1 f.1, f.2⟩

/-! ## Inline JPEG references -/

theorem data_url_jpeg (payload : List Int) :
    data_url (dataScheme ++ image_jpeg ++ [59] ++ base64_marker ++ payload)
      = some (image_jpeg, base64_decode payload) := by
  simp [data_url, find, starts_with, dataScheme, image_jpeg, base64_marker, image_png]

/-- C7: for a node without pixel buffer whose reference is
`data:image/jpeg;base64,<payload>`, where the payload decodes to a non-empty byte
sequence on which the JPEG decoder returns success, `_svg_image_read_image` returns
success with the node the JPEG decoder left (its buffer and dimensions), having entered
`_svg_image_read_jpeg_data` once and neither PNG decoder. -/
theorem C7_jpeg_reference_never_tries_png (w : world) (image : svg_image_t)
    (payload : List Int)
    (h0 : image.data = none)
    (hurl : image.url = dataScheme ++ image_jpeg ++ [59] ++ base64_marker ++ payload)
    (hne : base64_decode payload ≠ [])
    (hok : (_svg_image_read_jpeg_data w (base64_decode payload) image).status
      = SVG_STATUS_SUCCESS) :
    (_svg_image_read_image w image).status = SVG_STATUS_SUCCESS ∧
    (_svg_image_read_image w image).image
      = (_svg_image_read_jpeg_data w (base64_decode payload) image).image ∧
    (_svg_image_read_image w image).log.filter event.is_decoder
      = [event.read_jpeg_data (base64_decode payload)] ∧
    (∀ e ∈ (_svg_image_read_image w image).log, e.is_png_decoder = false) := by
  have hd := data_url_jpeg payload
  rw [← hurl] at hd
  have hlen : (base64_decode payload).length ≠ 0 := fun h => hne (List.length_eq_zero.mp h)
  have hmime : image_jpeg ≠ image_png := by decide
  have hlog := jpeg_decompress_log (w.jpeg (base64_decode payload)) image
  have hread : _svg_image_read_image w image
      = ⟨SVG_STATUS_SUCCESS, (_svg_image_read_jpeg_data w (base64_decode payload) image).image,
          (_svg_image_read_jpeg_data w (base64_decode payload) image).log⟩ := by
    unfold _svg_image_read_image
    simp only [h0, Option.isSome_none, Bool.false_eq_true, if_false, hd, hlen]
    unfold inline_dispatch inline_jpeg_block
    simp only [hmime, if_false, if_true, hok, List.nil_append]
  rw [hread]
  refine ⟨rfl, rfl, ?_, ?_⟩
  · show List.filter event.is_decoder
      (event.read_jpeg_data (base64_decode payload) ::
        (jpeg_decompress (w.jpeg (base64_decode payload)) image).log) = _
    rw [List.filter_cons_of_pos (by rfl)]
    congr 1
    exact List.filter_eq_nil_iff.mpr (fun e he => by simp [hlog e he])
  · intro e he
    change e ∈ event.read_jpeg_data (base64_decode payload) ::
        (jpeg_decompress (w.jpeg (base64_decode payload)) image).log at he
    rcases List.mem_cons.mp he with rfl | hmem
    · rfl
    · have := hlog e hmem
      cases e <;> simp_all [event.is_decoder, event.is_png_decoder]

/-- C7 at the reference `data:image/jpeg;base64,/9j/2Q==` on a platform whose libjpeg
decodes the four bytes to one pixel. -/
theorem C7_jpeg_reference_never_tries_png_witness :
    (_svg_image_read_image jpeg_world (node jpeg_reference)).status = SVG_STATUS_SUCCESS ∧
    (_svg_image_read_image jpeg_world (node jpeg_reference)).image
      = (_svg_image_read_jpeg_data jpeg_world (base64_decode (cstr "/9j/2Q=="))
          (node jpeg_reference)).image ∧
    (_svg_image_read_image jpeg_world (node jpeg_reference)).log.filter event.is_decoder
      = [event.read_jpeg_data (base64_decode (cstr "/9j/2Q=="))] ∧
    (∀ e ∈ (_svg_image_read_image jpeg_world (node jpeg_reference)).log,
      e.is_png_decoder = false) :=
  C7_jpeg_reference_never_tries_png jpeg_world (node jpeg_reference) (cstr "/9j/2Q==")
    (by decide) (by decide) (by decide) (by decide)

/-! ## The node invariant -/

/-- C8, evaluated on `data:image/jpeg;base64,/9j/2Q==` when libjpeg raises an error on
the second of two scanlines: `_svg_image_read_image` returns
`SVG_STATUS_PARSE_ERROR` and leaves `image->data` pointing at the buffer with the first
scanline in it; the next `_svg_image_render` of that node then returns success without
entering a decoder and hands that buffer to `render_image`. -/
theorem C8_jpeg_error_leaves_buffer :
    (_svg_image_read_image broken_jpeg_world (node jpeg_reference)).status
      = SVG_STATUS_PARSE_ERROR ∧
    (_svg_image_read_image broken_jpeg_world (node jpeg_reference)).image.data
      = some [3, 2, 1, 255, 6, 5, 4, 255] ∧
    (_svg_image_render broken_jpeg_world (node jpeg_reference)).status
      = SVG_STATUS_PARSE_ERROR ∧
    (_svg_image_render broken_jpeg_world
      (_svg_image_render broken_jpeg_world (node jpeg_reference)).image).status
      = SVG_STATUS_SUCCESS ∧
    (_svg_image_render broken_jpeg_world
      (_svg_image_render broken_jpeg_world (node jpeg_reference)).image).log
      = [event.render_image (some [3, 2, 1, 255, 6, 5, 4, 255]) 2 2
          (px 0) (px 0) (px 10) (px 10)] := by
  decide

/-! ## Rendering twice -/

theorem read_image_cached (w : world) (image : svg_image_t)
    (h : image.data.isSome = true) :
    _svg_image_read_image w image = ⟨SVG_STATUS_SUCCESS, image, []⟩ := by
  unfold _svg_image_read_image
  simp only [h, if_true]

theorem render_decoded (w : world) (image : svg_image_t)
    (hw : image.width.value ≠ 0) (hh : image.height.value ≠ 0)
    (hdec : (_svg_image_read_image w image).status = SVG_STATUS_SUCCESS) :
    _svg_image_render w image
      = ⟨w.render_image (_svg_image_read_image w image).image.data
          (_svg_image_read_image w image).image.data_width
          (_svg_image_read_image w image).image.data_height
          (_svg_image_read_image w image).image.x (_svg_image_read_image w image).image.y
          (_svg_image_read_image w image).image.width
          (_svg_image_read_image w image).image.height,
         (_svg_image_read_image w image).image,
         (_svg_image_read_image w image).log ++
          [event.render_image (_svg_image_read_image w image).image.data
            (_svg_image_read_image w image).image.data_width
            (_svg_image_read_image w image).image.data_height
            (_svg_image_read_image w image).image.x (_svg_image_read_image w image).image.y
            (_svg_image_read_image w image).image.width
            (_svg_image_read_image w image).image.height]⟩ := by
  unfold _svg_image_render
  simp only [hw, hh, or_self, if_false, hdec, ne_eq, not_true_eq_false]

theorem read_png_enters (w : world) (filename : List Int) (image : svg_image_t) :
    event.read_png filename ∈ (_svg_image_read_png w filename image).log := by
  unfold _svg_image_read_png
  split
  · simp
  · dsimp only
    split_ifs <;> simp

theorem file_dispatch_enters (w : world) (image : svg_image_t) (log : List event) :
    ∃ e ∈ (file_dispatch w image log).log, e.is_decoder = true := by
  have h := read_png_enters w (w.url_to_path image.url) image
  refine ⟨event.read_png (w.url_to_path image.url), ?_, rfl⟩
  unfold file_dispatch
  dsimp only
  split_ifs <;> simp [h]

theorem inline_jpeg_block_enters (w : world) (mimeType : List Int) (buf : List Nat)
    (image : svg_image_t) (log : List event) (status : svg_status_t)
    (h : (inline_jpeg_block w mimeType buf image log).1 = some status) :
    ∃ e ∈ (inline_jpeg_block w mimeType buf image log).2.2, e.is_decoder = true := by
  refine ⟨event.read_jpeg_data buf, ?_, rfl⟩
  unfold inline_jpeg_block at h ⊢
  dsimp only at h ⊢
  split_ifs at h ⊢ <;> simp [_svg_image_read_jpeg_data]

theorem inline_dispatch_enters (w : world) (mimeType : List Int) (buf : List Nat)
    (image : svg_image_t) (status : svg_status_t)
    (h : (inline_dispatch w mimeType buf image).1 = some status) :
    ∃ e ∈ (inline_dispatch w mimeType buf image).2.2, e.is_decoder = true := by
  unfold inline_dispatch at h ⊢
  dsimp only at h ⊢
  by_cases h1 : mimeType = image_png
  · rw [if_pos h1] at h ⊢
    by_cases h2 : (_svg_image_read_png_data w buf image).status = SVG_STATUS_SUCCESS
    · rw [if_pos h2]
      refine ⟨event.read_png_data buf, ?_, rfl⟩
      unfold _svg_image_read_png_data
      dsimp only
      split_ifs <;> simp
    · rw [if_neg h2] at h ⊢
      exact inline_jpeg_block_enters w _ buf _ _ status h
  · rw [if_neg h1] at h ⊢
    exact inline_jpeg_block_enters w _ buf _ _ status h

theorem read_image_enters (w : world) (image : svg_image_t) (h0 : image.data = none) :
    ∃ e ∈ (_svg_image_read_image w image).log, e.is_decoder = true := by
  unfold _svg_image_read_image
  simp only [h0, Option.isSome_none, Bool.false_eq_true, if_false]
  split
  · exact file_dispatch_enters w image []
  · rename_i mimeType buf _
    split_ifs
    · exact file_dispatch_enters w image []
    · split
      · rename_i status image1 log heq
        have i := inline_dispatch_enters w mimeType buf image status (by rw [heq])
        rw [heq] at i
        exact i
      · rename_i image1 log heq
        exact file_dispatch_enters w image1 log

/-- C9: for a node with non-zero width and height whose first `_svg_image_render`
decodes successfully, the second `_svg_image_render` of the node the first one left
enters no decoder: all it does is call `render_image`, with the very buffer, pixel width
and pixel height (and geometry) the first render passed to it. The node is not changed
by the second render, and a first render that starts without pixel buffer does enter a
decoder. -/
theorem C9_second_render_uses_cache (w : world) (image : svg_image_t)
    (hw : image.width.value ≠ 0) (hh : image.height.value ≠ 0)
    (hdec : (_svg_image_read_image w image).status = SVG_STATUS_SUCCESS) :
    ∃ call : event,
      call = event.render_image (_svg_image_render w image).image.data
        (_svg_image_render w image).image.data_width
        (_svg_image_render w image).image.data_height
        image.x image.y image.width image.height ∧
      (_svg_image_render w image).log = (_svg_image_read_image w image).log ++ [call] ∧
      (_svg_image_render w (_svg_image_render w image).image).log = [call] ∧
      (_svg_image_render w (_svg_image_render w image).image).log.filter event.is_decoder
        = [] ∧
      (_svg_image_render w (_svg_image_render w image).image).image
        = (_svg_image_render w image).image ∧
      (image.data = none →
        ∃ e ∈ (_svg_image_render w image).log, e.is_decoder = true) := by
  obtain ⟨hsame, hsome⟩ := read_image_frame w image
  have hdata := hsome hdec
  obtain ⟨_, hx, hy, hwd, hht⟩ := hsame
  have hfirst := render_decoded w image hw hh hdec
  have hcached := read_image_cached w (_svg_image_read_image w image).image hdata
  have hw2 : (_svg_image_read_image w image).image.width.value ≠ 0 := by rw [← hwd]; exact hw
  have hh2 : (_svg_image_read_image w image).image.height.value ≠ 0 := by rw [← hht]; exact hh
  have hsecond := render_decoded w (_svg_image_read_image w image).image hw2 hh2
    (by rw [hcached])
  rw [hcached] at hsecond
  rw [← hx, ← hy, ← hwd, ← hht] at hfirst hsecond
  rw [hfirst]
  dsimp only
  rw [hsecond]
  refine ⟨_, rfl, rfl, rfl, by simp [event.is_decoder], rfl, ?_⟩
  intro hnone
  obtain ⟨e, he, hdecoder⟩ := read_image_enters w image hnone
  exact ⟨e, List.mem_append_left _ he, hdecoder⟩

/-- C9 at an inline JPEG reference on a platform whose libjpeg decodes it. -/
theorem C9_second_render_uses_cache_witness :
    ∃ call : event,
      call = event.render_image (_svg_image_render jpeg_world (node jpeg_reference)).image.data
        (_svg_image_render jpeg_world (node jpeg_reference)).image.data_width
        (_svg_image_render jpeg_world (node jpeg_reference)).image.data_height
        (node jpeg_reference).x (node jpeg_reference).y (node jpeg_reference).width
        (node jpeg_reference).height ∧
      (_svg_image_render jpeg_world (node jpeg_reference)).log
        = (_svg_image_read_image jpeg_world (node jpeg_reference)).log ++ [call] ∧
      (_svg_image_render jpeg_world
        (_svg_image_render jpeg_world (node jpeg_reference)).image).log = [call] ∧
      (_svg_image_render jpeg_world
        (_svg_image_render jpeg_world (node jpeg_reference)).image).log.filter
          event.is_decoder = [] ∧
      (_svg_image_render jpeg_world
        (_svg_image_render jpeg_world (node jpeg_reference)).image).image
        = (_svg_image_render jpeg_world (node jpeg_reference)).image ∧
      ((node jpeg_reference).data = none →
        ∃ e ∈ (_svg_image_render jpeg_world (node jpeg_reference)).log,
          e.is_decoder = true) :=
  C9_second_render_uses_cache jpeg_world (node jpeg_reference) (by decide) (by decide)
    (by decide)

/-! ## The size of the output buffer -/

theorem buffer_size_eq (width height : Nat) :
    buffer_size width height = width * height * 4 % 2 ^ 32 := by
  unfold buffer_size
  generalize width * height = p
  omega

theorem read_png_data_request (w : world) (fileData : List Nat) (image : svg_image_t)
    (h : (_svg_image_read_png_data w fileData image).status = SVG_STATUS_SUCCESS) :
    (_svg_image_read_png_data w fileData image).log
      = [event.read_png_data fileData,
         event.malloc (buffer_size (_svg_image_read_png_data w fileData image).image.data_width
           (_svg_image_read_png_data w fileData image).image.data_height)] := by
  unfold _svg_image_read_png_data at h ⊢
  dsimp only at h ⊢
  split_ifs at h ⊢
  · rw [((png_decode_frame w 8 _ image).2 h).2]
  · rw [((png_decode_frame w 8 _ image).2 h).2]

theorem read_png_request (w : world) (filename : List Int) (image : svg_image_t)
    (h : (_svg_image_read_png w filename image).status = SVG_STATUS_SUCCESS) :
    (_svg_image_read_png w filename image).log
      = [event.read_png filename,
         event.malloc (buffer_size (_svg_image_read_png w filename image).image.data_width
           (_svg_image_read_png w filename image).image.data_height)] := by
  unfold _svg_image_read_png at h ⊢
  split at h
  · cases h
  · rename_i contents hopen
    simp only [hopen]
    dsimp only at h ⊢
    split_ifs at h ⊢
    rw [((png_decode_frame w _ _ image).2 h).2]

theorem read_jpeg_data_request (w : world) (fileData : List Nat) (image : svg_image_t)
    (h : (_svg_image_read_jpeg_data w fileData image).status = SVG_STATUS_SUCCESS) :
    (_svg_image_read_jpeg_data w fileData image).log
      = [event.read_jpeg_data fileData,
         event.malloc (buffer_size (_svg_image_read_jpeg_data w fileData image).image.data_width
           (_svg_image_read_jpeg_data w fileData image).image.data_height)] := by
  unfold _svg_image_read_jpeg_data at h ⊢
  dsimp only at h ⊢
  rw [((jpeg_decompress_frame (w.jpeg fileData) image).2 h).2]

theorem read_jpeg_request (w : world) (filename : List Int) (image : svg_image_t)
    (h : (_svg_image_read_jpeg w filename image).status = SVG_STATUS_SUCCESS) :
    (_svg_image_read_jpeg w filename image).log
      = [event.read_jpeg filename,
         event.malloc (buffer_size (_svg_image_read_jpeg w filename image).image.data_width
           (_svg_image_read_jpeg w filename image).image.data_height)] := by
  unfold _svg_image_read_jpeg at h ⊢
  split at h
  · cases h
  · rename_i contents hopen
    simp only [hopen]
    dsimp only at h ⊢
    rw [((jpeg_decompress_frame (w.jpeg contents) image).2 h).2]

theorem jpeg_scanlines_complete (run : jpeg_run) (hdr : jpeg_header)
    (hs : ∀ k, ∃ inp, run.scanline k = .ok inp) (n line : Nat) (out : List Nat) :
    (jpeg_scanlines run hdr n line out).1 = none := by
  induction n generalizing line out with
  | zero => rfl
  | succ n ih =>
    obtain ⟨inp, h⟩ := hs line
    simp only [jpeg_scanlines, h]
    exact ih _ _

/-- When libjpeg completes every stage, the adapter body returns success with the
dimensions of the header. -/
theorem jpeg_decompress_complete (run : jpeg_run) (image : svg_image_t) (hdr : jpeg_header)
    (hh : run.header = .ok hdr) (ha : run.alloc_sarray = none)
    (hs : ∀ k, ∃ inp, run.scanline k = .ok inp) (hf : run.finish = none) :
    (jpeg_decompress run image).status = SVG_STATUS_SUCCESS ∧
    (jpeg_decompress run image).image.data_width = hdr.output_width ∧
    (jpeg_decompress run image).image.data_height = hdr.output_height := by
  have hc := jpeg_scanlines_complete run hdr hs hdr.output_height 0 []
  unfold jpeg_decompress
  simp only [hh, ha, hf]
  cases hp : jpeg_scanlines run hdr hdr.output_height 0 [] with
  | mk code out =>
    rw [hp] at hc
    dsimp only at hc
    subst hc
    exact ⟨rfl, rfl, rfl⟩

theorem read_jpeg_data_complete (w : world) (fileData : List Nat) (image : svg_image_t)
    (hdr : jpeg_header) (hh : (w.jpeg fileData).header = .ok hdr)
    (ha : (w.jpeg fileData).alloc_sarray = none)
    (hs : ∀ k, ∃ inp, (w.jpeg fileData).scanline k = .ok inp)
    (hf : (w.jpeg fileData).finish = none) :
    (_svg_image_read_jpeg_data w fileData image).status = SVG_STATUS_SUCCESS ∧
    (_svg_image_read_jpeg_data w fileData image).image.data_width = hdr.output_width ∧
    (_svg_image_read_jpeg_data w fileData image).image.data_height = hdr.output_height :=
  jpeg_decompress_complete (w.jpeg fileData) image hdr hh ha hs hf

theorem jpeg_copy_pixels_length (num_components n : Nat) (inp out : List Nat) :
    (jpeg_copy_pixels num_components n inp out).length = out.length + 4 * n := by
  induction n generalizing inp out with
  | zero => simp [jpeg_copy_pixels]
  | succ n ih =>
    unfold jpeg_copy_pixels
    dsimp only
    split_ifs <;> rw [ih] <;> simp only [List.length_append, List.length_cons,
      List.length_nil] <;> omega

theorem jpeg_scanlines_length (run : jpeg_run) (hdr : jpeg_header)
    (hs : ∀ k, ∃ inp, run.scanline k = .ok inp) (n line : Nat) (out : List Nat) :
    (jpeg_scanlines run hdr n line out).2.length
      = out.length + 4 * hdr.output_width * n := by
  induction n generalizing line out with
  | zero => simp [jpeg_scanlines]
  | succ n ih =>
    obtain ⟨inp, h⟩ := hs line
    simp only [jpeg_scanlines, h]
    rw [ih, jpeg_copy_pixels_length]
    ring

/-- When libjpeg completes every stage, the adapter body has stored four bytes for
every pixel behind the output pointer, whatever size it requested for the block. -/
theorem jpeg_decompress_written (run : jpeg_run) (image : svg_image_t) (hdr : jpeg_header)
    (hh : run.header = .ok hdr) (ha : run.alloc_sarray = none)
    (hs : ∀ k, ∃ inp, run.scanline k = .ok inp) (hf : run.finish = none) :
    ∃ out, (jpeg_decompress run image).image.data = some out ∧
      out.length = 4 * hdr.output_width * hdr.output_height := by
  have hc := jpeg_scanlines_complete run hdr hs hdr.output_height 0 []
  have hl := jpeg_scanlines_length run hdr hs hdr.output_height 0 []
  unfold jpeg_decompress
  simp only [hh, ha, hf]
  cases hp : jpeg_scanlines run hdr hdr.output_height 0 [] with
  | mk code out =>
    rw [hp] at hc hl
    dsimp only at hc hl
    subst hc
    exact ⟨out, rfl, by simpa using hl⟩

theorem read_jpeg_data_written (w : world) (fileData : List Nat) (image : svg_image_t)
    (hdr : jpeg_header) (hh : (w.jpeg fileData).header = .ok hdr)
    (ha : (w.jpeg fileData).alloc_sarray = none)
    (hs : ∀ k, ∃ inp, (w.jpeg fileData).scanline k = .ok inp)
    (hf : (w.jpeg fileData).finish = none) :
    ∃ out, (_svg_image_read_jpeg_data w fileData image).image.data = some out ∧
      out.length = 4 * hdr.output_width * hdr.output_height :=
  jpeg_decompress_written (w.jpeg fileData) image hdr hh ha hs hf

theorem store_unsigned_long_length (U : Nat) (data : List Nat) (i pixel : Nat) :
    (store_unsigned_long U data i pixel).length = data.length := by
  unfold store_unsigned_long
  generalize List.range U = l
  induction l generalizing data with
  | nil => rfl
  | cons j l ih =>
    simp only [List.foldl_cons]
    rw [ih, List.length_set]

theorem premultiply_data_length (U rowbytes : Nat) (data : List Nat) :
    (premultiply_data U rowbytes data).length = data.length := by
  unfold premultiply_data
  generalize List.range ((rowbytes + 3) / 4) = l
  induction l generalizing data with
  | nil => rfl
  | cons k l ih =>
    simp only [List.foldl_cons]
    rw [ih]
    unfold premultiply_step
    exact store_unsigned_long_length U data _ _

/-- When the inline PNG adapter returns success, it has stored every byte of every row
libpng delivered behind the output pointer, whatever size it requested for the
block. -/
theorem read_png_data_written (w : world) (fileData : List Nat) (image : svg_image_t)
    (h : (_svg_image_read_png_data w fileData image).status = SVG_STATUS_SUCCESS) :
    ∃ out, (_svg_image_read_png_data w fileData image).image.data = some out ∧
      out.length = ((w.png_read 8
        (if fileData.length > 8 then fileData.drop 8 else fileData)).rows.map
          List.length).sum := by
  have hlen : ∀ rows : List (List Nat),
      ((rows.map (fun row => premultiply_data w.sizeof_unsigned_long row.length row)).flatten).length
        = (rows.map List.length).sum := by
    intro rows
    rw [List.length_flatten, List.map_map]
    congr 1
    apply List.map_congr_left
    intro row _
    exact premultiply_data_length _ _ row
  unfold _svg_image_read_png_data at h ⊢
  dsimp only at h ⊢
  split_ifs at h ⊢ with h1 h2
  · unfold png_decode at h ⊢
    dsimp only at h ⊢
    split_ifs at h ⊢
    exact ⟨_, rfl, hlen _⟩
  · unfold png_decode at h ⊢
    dsimp only at h ⊢
    split_ifs at h ⊢
    exact ⟨_, rfl, hlen _⟩

/-- C10, evaluated on a JPEG of 32768 by 32769 pixels and on a PNG of 65536 by 16385
pixels. The inline JPEG decoder requests 131072 bytes for the output buffer, while
32768 × 32769 × 4 = 4295098368, and stores 4295098368 bytes behind the pointer it
got; the inline PNG decoder requests 262144 bytes, while 65536 × 16385 × 4 =
4295229440, and stores 4295229440 bytes. The `unsigned int` product has wrapped
around, and the stores run past the block. -/
theorem C10_buffer_request_wraps :
    ((_svg_image_read_jpeg_data wide_jpeg_world [255, 216, 255, 217]
      (node jpeg_reference)).status = SVG_STATUS_SUCCESS ∧
    (_svg_image_read_jpeg_data wide_jpeg_world [255, 216, 255, 217]
      (node jpeg_reference)).image.data_width = 32768 ∧
    (_svg_image_read_jpeg_data wide_jpeg_world [255, 216, 255, 217]
      (node jpeg_reference)).image.data_height = 32769 ∧
    (_svg_image_read_jpeg_data wide_jpeg_world [255, 216, 255, 217]
      (node jpeg_reference)).log
      = [event.read_jpeg_data [255, 216, 255, 217], event.malloc 131072] ∧
    32768 * 32769 * 4 = 4295098368 ∧
    ∃ out, (_svg_image_read_jpeg_data wide_jpeg_world [255, 216, 255, 217]
      (node jpeg_reference)).image.data = some out ∧ out.length = 4295098368) ∧
    ((_svg_image_read_png_data wide_png_world (png_signature ++ [0, 0, 0, 13])
      (node png_reference)).status = SVG_STATUS_SUCCESS ∧
    (_svg_image_read_png_data wide_png_world (png_signature ++ [0, 0, 0, 13])
      (node png_reference)).image.data_width = 65536 ∧
    (_svg_image_read_png_data wide_png_world (png_signature ++ [0, 0, 0, 13])
      (node png_reference)).image.data_height = 16385 ∧
    (_svg_image_read_png_data wide_png_world (png_signature ++ [0, 0, 0, 13])
      (node png_reference)).log
      = [event.read_png_data (png_signature ++ [0, 0, 0, 13]), event.malloc 262144] ∧
    65536 * 16385 * 4 = 4295229440 ∧
    ∃ out, (_svg_image_read_png_data wide_png_world (png_signature ++ [0, 0, 0, 13])
      (node png_reference)).image.data = some out ∧ out.length = 4295229440) := by
  have hj := read_jpeg_data_complete wide_jpeg_world [255, 216, 255, 217]
    (node jpeg_reference) ⟨32768, 32769, 3⟩ rfl rfl (fun _ => ⟨_, rfl⟩) rfl
  have hl := read_jpeg_data_request wide_jpeg_world [255, 216, 255, 217]
    (node jpeg_reference) hj.1
  have hw : (_svg_image_read_jpeg_data wide_jpeg_world [255, 216, 255, 217]
      (node jpeg_reference)).image.data_width = 32768 := hj.2.1
  have hh : (_svg_image_read_jpeg_data wide_jpeg_world [255, 216, 255, 217]
      (node jpeg_reference)).image.data_height = 32769 := hj.2.2
  rw [hw, hh] at hl
  obtain ⟨outj, hj1, hj2⟩ := read_jpeg_data_written wide_jpeg_world [255, 216, 255, 217]
    (node jpeg_reference) ⟨32768, 32769, 3⟩ rfl rfl (fun _ => ⟨_, rfl⟩) rfl
  have hps : (_svg_image_read_png_data wide_png_world (png_signature ++ [0, 0, 0, 13])
      (node png_reference)).status = SVG_STATUS_SUCCESS := by decide
  obtain ⟨outp, hp1, hp2⟩ := read_png_data_written wide_png_world
    (png_signature ++ [0, 0, 0, 13]) (node png_reference) hps
  have hr : (wide_png_world.png_read 8
      (if (png_signature ++ [0, 0, 0, 13]).length > 8
        then (png_signature ++ [0, 0, 0, 13]).drop 8
        else png_signature ++ [0, 0, 0, 13])).rows
      = List.replicate 16385 (List.replicate 262144 0) := rfl
  rw [hr, List.map_replicate, List.length_replicate, List.sum_replicate] at hp2
  refine ⟨⟨hj.1, hw, hh, ?_, by decide, outj, hj1, ?_⟩,
    ⟨hps, by decide, by decide, by decide, by decide, outp, hp1, ?_⟩⟩
  · rw [hl]
    decide
  · rw [hj2]
    decide
  · rw [hp2]
    norm_num

/-- What the four decoders request: when one of them returns success with reported
pixel width `w` and height `h`, it has made exactly one request for the output buffer,
of `w × h × 4` reduced modulo `2 ^ 32` bytes; only when the product is below `2 ^ 32`
is the request the product. -/
theorem decoder_request_modulo (w : world) (image : svg_image_t) (fileData : List Nat)
    (filename : List Int) (r : result)
    (hr : r = _svg_image_read_png_data w fileData image ∨
      r = _svg_image_read_jpeg_data w fileData image ∨
      r = _svg_image_read_png w filename image ∨
      r = _svg_image_read_jpeg w filename image)
    (hok : r.status = SVG_STATUS_SUCCESS) :
    (∃ entry : event, entry.is_decoder = true ∧
      r.log = [entry, event.malloc (r.image.data_width * r.image.data_height * 4 % 2 ^ 32)]) ∧
    (r.image.data_width * r.image.data_height * 4 < 2 ^ 32 →
      ∃ entry : event, entry.is_decoder = true ∧
        r.log = [entry, event.malloc (r.image.data_width * r.image.data_height * 4)]) := by
  have main : ∃ entry : event, entry.is_decoder = true ∧
      r.log = [entry, event.malloc (r.image.data_width * r.image.data_height * 4 % 2 ^ 32)] := by
    rcases hr with rfl | rfl | rfl | rfl
    · exact ⟨event.read_png_data fileData, rfl, by rw [← buffer_size_eq]; exact read_png_data_request w fileData image hok⟩
    · exact ⟨event.read_jpeg_data fileData, rfl, by rw [← buffer_size_eq]; exact read_jpeg_data_request w fileData image hok⟩
    · exact ⟨event.read_png filename, rfl, by rw [← buffer_size_eq]; exact read_png_request w filename image hok⟩
    · exact ⟨event.read_jpeg filename, rfl, by rw [← buffer_size_eq]; exact read_jpeg_request w filename image hok⟩
  refine ⟨main, fun hlt => ?_⟩
  obtain ⟨entry, he, hl⟩ := main
  exact ⟨entry, he, by rw [hl, Nat.mod_eq_of_lt hlt]⟩

/-- The four decoders on a platform where each of them succeeds on an image of one
pixel: each requests 4 bytes. -/
theorem decoder_request_one_pixel :
    (_svg_image_read_png_data image_file_world (png_signature ++ [0, 0, 0, 13])
      (node png_reference)).log
      = [event.read_png_data (png_signature ++ [0, 0, 0, 13]), event.malloc 4] ∧
    (∃ entry : event, entry.is_decoder = true ∧
      (_svg_image_read_jpeg_data image_file_world [255, 216, 255, 217]
        (node jpeg_reference)).log = [entry, event.malloc (1 * 1 * 4 % 2 ^ 32)]) ∧
    (∃ entry : event, entry.is_decoder = true ∧
      (_svg_image_read_png image_file_world (cstr "a.png") (node (cstr "a.png"))).log
        = [entry, event.malloc (1 * 1 * 4 % 2 ^ 32)]) ∧
    (∃ entry : event, entry.is_decoder = true ∧
      (_svg_image_read_jpeg image_file_world (cstr "a.jpg") (node (cstr "a.jpg"))).log
        = [entry, event.malloc (1 * 1 * 4)]) :=
  ⟨by decide,
   (decoder_request_modulo image_file_world (node jpeg_reference) [255, 216, 255, 217]
      (cstr "a.jpg") _ (Or.inr (Or.inl rfl)) (by decide)).1,
   (decoder_request_modulo image_file_world (node (cstr "a.png")) [] (cstr "a.png")
      _ (Or.inr (Or.inr (Or.inl rfl))) (by decide)).1,
   (decoder_request_modulo image_file_world (node (cstr "a.jpg")) [] (cstr "a.jpg")
      _ (Or.inr (Or.inr (Or.inr rfl))) (by decide)).2 (by decide)⟩

/-! ## Zero-area nodes -/

/-- C11: for a node whose width value is 0 or whose height value is 0,
`_svg_image_render` returns `SVG_STATUS_SUCCESS` with an empty log (no decoder is
entered, no buffer requested, `render_image` is not called) and the node it leaves is
the node it was given, every field unchanged. -/
theorem C11_zero_area_render_is_noop (w : world) (image : svg_image_t)
    (h : image.width.value = 0 ∨ image.height.value = 0) :
    (_svg_image_render w image).status = SVG_STATUS_SUCCESS ∧
    (_svg_image_render w image).log = [] ∧
    (_svg_image_render w image).image = image := by
  unfold _svg_image_render
  rw [if_pos h]
  exact ⟨rfl, rfl, rfl⟩

/-- C11 at a node of width 0 and height 10 and at a node of width 10 and height 0,
both with a decodable inline reference. -/
theorem C11_zero_area_render_is_noop_witness :
    ((_svg_image_render plain_world (sized_node 0 10)).status = SVG_STATUS_SUCCESS ∧
      (_svg_image_render plain_world (sized_node 0 10)).log = [] ∧
      (_svg_image_render plain_world (sized_node 0 10)).image = sized_node 0 10) ∧
    ((_svg_image_render plain_world (sized_node 10 0)).status = SVG_STATUS_SUCCESS ∧
      (_svg_image_render plain_world (sized_node 10 0)).log = [] ∧
      (_svg_image_render plain_world (sized_node 10 0)).image = sized_node 10 0) ∧
    (_svg_image_render plain_world (sized_node 10 10)).log ≠ [] :=
  ⟨C11_zero_area_render_is_noop plain_world (sized_node 0 10) (Or.inl (by decide)),
   C11_zero_area_render_is_noop plain_world (sized_node 10 0) (Or.inr (by decide)),
   by decide⟩

/-! ## Decoding an RFC 4648 encoding -/

theorem base64_char_legal : ∀ n, n < 64 →
    skipped (base64_char n) = false ∧ illegal (base64_char n) = false ∧
    reverse_table.getD (base64_char n).toNat 64 = n := by
  decide

/-- The accumulator update of line 234 in arithmetic: the shift keeps the low 26 bits
of the `unsigned int`, and the new symbol fills the six bits it frees. -/
theorem accumulator_step (acc v : Nat) (hv : v < 64) :
    ((acc <<< 6) % 2 ^ 32) ||| v = 64 * (acc % 2 ^ 26) + v := by
  have h1 : acc <<< 6 % 2 ^ 32 = 2 ^ 6 * (acc % 2 ^ 26) := by
    rw [Nat.shiftLeft_eq]
    omega
  have h2 : 2 ^ 6 * (acc % 2 ^ 26) + v = 2 ^ 6 * (acc % 2 ^ 26) ||| v :=
    Nat.mul_add_lt_is_or (by omega) _
  rw [h1, ← h2]
  omega

theorem base64_loop_symbol (n : Nat) (hn : n < 64) (rest : List Int) (bits acc : Nat)
    (buf : List Nat) :
    base64_loop (base64_char n :: rest) bits acc buf
      = if bits + 6 ≥ 8 then
          base64_loop rest (bits + 6 - 8) (64 * (acc % 2 ^ 26) + n)
            (buf ++ [(64 * (acc % 2 ^ 26) + n) / 2 ^ (bits + 6 - 8) % 2 ^ 8])
        else base64_loop rest (bits + 6) (64 * (acc % 2 ^ 26) + n) buf := by
  obtain ⟨h1, h2, h3⟩ := base64_char_legal n hn
  rw [base64_loop]
  simp only [h1, h2, h3, accumulator_step acc n hn, Bool.false_eq_true, if_false, and_255,
    Nat.shiftRight_eq_div_pow]

theorem base64_loop_padding (rest : List Int) (bits acc : Nat) (buf : List Nat) :
    base64_loop (61 :: rest) bits acc buf = base64_loop rest bits acc buf := by
  rw [base64_loop]
  have h : skipped 61 = true := by decide
  simp only [h, if_true]

/-- From an empty bit buffer, the two symbols that carry a byte `a` (and the high four
bits `hi` of the next byte) emit `a`, whatever the accumulator held. -/
theorem base64_loop_first_byte (a hi : Nat) (ha : a < 256) (hhi : hi < 16)
    (rest : List Int) (acc : Nat) (buf : List Nat) :
    ∃ acc2, acc2 % 16 = hi ∧
      base64_loop (base64_char (a / 4) :: base64_char (a % 4 * 16 + hi) :: rest) 0 acc buf
        = base64_loop rest 4 acc2 (buf ++ [a]) := by
  refine ⟨64 * ((64 * (acc % 2 ^ 26) + a / 4) % 2 ^ 26) + (a % 4 * 16 + hi), by omega, ?_⟩
  rw [base64_loop_symbol (a / 4) (by omega), if_neg (by decide),
    base64_loop_symbol (a % 4 * 16 + hi) (by omega), if_pos (by decide)]
  have e : (64 * ((64 * (acc % 2 ^ 26) + a / 4) % 2 ^ 26) + (a % 4 * 16 + hi))
      / 2 ^ (0 + 6 + 6 - 8) % 2 ^ 8 = a := by
    norm_num
    omega
  rw [e]

/-- With four bits `b / 16` pending, the symbol that carries the low four bits of `b`
(and the high two bits `hi` of the next byte) emits `b`. -/
theorem base64_loop_second_byte (b hi : Nat) (hb : b < 256) (hhi : hi < 4)
    (rest : List Int) (acc : Nat) (hacc : acc % 16 = b / 16) (buf : List Nat) :
    ∃ acc3, acc3 % 4 = hi ∧
      base64_loop (base64_char (b % 16 * 4 + hi) :: rest) 4 acc buf
        = base64_loop rest 2 acc3 (buf ++ [b]) := by
  refine ⟨64 * (acc % 2 ^ 26) + (b % 16 * 4 + hi), by omega, ?_⟩
  rw [base64_loop_symbol (b % 16 * 4 + hi) (by omega), if_pos (by decide)]
  have e : (64 * (acc % 2 ^ 26) + (b % 16 * 4 + hi)) / 2 ^ (4 + 6 - 8) % 2 ^ 8 = b := by
    norm_num
    omega
  rw [e]

/-- With two bits `c / 64` pending, the symbol that carries the low six bits of `c`
emits `c` and leaves the bit buffer empty. -/
theorem base64_loop_third_byte (c : Nat) (hc : c < 256) (rest : List Int) (acc : Nat)
    (hacc : acc % 4 = c / 64) (buf : List Nat) :
    ∃ acc4,
      base64_loop (base64_char (c % 64) :: rest) 2 acc buf
        = base64_loop rest 0 acc4 (buf ++ [c]) := by
  refine ⟨64 * (acc % 2 ^ 26) + c % 64, ?_⟩
  rw [base64_loop_symbol (c % 64) (by omega), if_pos (by decide)]
  have e : (64 * (acc % 2 ^ 26) + c % 64) / 2 ^ (2 + 6 - 8) % 2 ^ 8 = c := by
    norm_num
    omega
  rw [e]

theorem base64_loop_encode (bs : List Nat) (hbytes : ∀ b ∈ bs, b < 256) (acc : Nat)
    (buf : List Nat) :
    base64_loop (rfc4648_encode bs) 0 acc buf = buf ++ bs := by
  induction bs using rfc4648_encode.induct generalizing acc buf with
  | case1 => simp [rfc4648_encode, base64_loop]
  | case2 a =>
    have ha : a < 256 := hbytes a (by simp)
    obtain ⟨acc2, _, h⟩ := base64_loop_first_byte a 0 ha (by omega) [61, 61] acc buf
    rw [rfc4648_encode]
    rw [Nat.add_zero] at h
    rw [h, base64_loop_padding, base64_loop_padding, base64_loop]
  | case3 a b =>
    have ha : a < 256 := hbytes a (by simp)
    have hb : b < 256 := hbytes b (by simp)
    obtain ⟨acc2, h2, h⟩ := base64_loop_first_byte a (b / 16) ha (by omega)
      [base64_char (b % 16 * 4), 61] acc buf
    obtain ⟨acc3, _, h'⟩ := base64_loop_second_byte b 0 hb (by omega) [61] acc2 h2
      (buf ++ [a])
    rw [Nat.add_zero] at h'
    rw [rfc4648_encode, h, h', base64_loop_padding, base64_loop]
    simp
  | case4 a b c rest ih =>
    have ha : a < 256 := hbytes a (by simp)
    have hb : b < 256 := hbytes b (by simp)
    have hc : c < 256 := hbytes c (by simp)
    have hrest : ∀ x ∈ rest, x < 256 := fun x hx => hbytes x (by simp [hx])
    obtain ⟨acc2, h2, h⟩ := base64_loop_first_byte a (b / 16) ha (by omega)
      (base64_char (b % 16 * 4 + c / 64) :: base64_char (c % 64) :: rfc4648_encode rest)
      acc buf
    obtain ⟨acc3, h3, h'⟩ := base64_loop_second_byte b (c / 64) hb (by omega)
      (base64_char (c % 64) :: rfc4648_encode rest) acc2 h2 (buf ++ [a])
    obtain ⟨acc4, h''⟩ := base64_loop_third_byte c hc (rfc4648_encode rest) acc3 h3
      (buf ++ [a] ++ [b])
    rw [rfc4648_encode, h, h', h'', ih hrest]
    simp

/-- C12: for every sequence of bytes, the inline base64 decode loop run on its standard
RFC 4648 encoding yields exactly that sequence. The accumulator is the 32-bit
`unsigned int` of the source, whose left shift drops the high bits: for inputs of any
length the emitted bytes are not affected. -/
theorem C12_decode_rfc4648_encode (bs : List Nat) (hbytes : ∀ b ∈ bs, b < 256) :
    base64_decode (rfc4648_encode bs) = bs := by
  have h := base64_loop_encode bs hbytes 0 []
  simpa [base64_decode] using h

/-- C12 at the bytes of `Man`, `Ma` and `M` (encoded `TWFu`, `TWE=`, `TQ==`) and at
eight bytes 255, after which the accumulator has wrapped around. -/
theorem C12_decode_rfc4648_encode_witness :
    rfc4648_encode [77, 97, 110] = cstr "TWFu" ∧
    rfc4648_encode [77, 97] = cstr "TWE=" ∧
    rfc4648_encode [77] = cstr "TQ==" ∧
    base64_decode (cstr "TWFu") = [77, 97, 110] ∧
    base64_decode (rfc4648_encode [77, 97]) = [77, 97] ∧
    base64_decode (rfc4648_encode [77]) = [77] ∧
    base64_decode (rfc4648_encode [255, 255, 255, 255, 255, 255, 255, 255])
      = [255, 255, 255, 255, 255, 255, 255, 255] :=
  ⟨by decide, by decide, by decide,
   C12_decode_rfc4648_encode [77, 97, 110] (by decide),
   C12_decode_rfc4648_encode [77, 97] (by decide),
   C12_decode_rfc4648_encode [77] (by decide),
   C12_decode_rfc4648_encode [255, 255, 255, 255, 255, 255, 255, 255] (by decide)⟩

/-! ## Inline payloads that the inline decoders reject -/

/-- When the inline decoders reached for a reference return their not-this-format
signals (or none is reached), `_svg_image_read_image` is the file-based dispatch on the
unchanged node: its status is the status of that dispatch. -/
theorem read_image_inline_reject (w : world) (image : svg_image_t)
    (h0 : image.data = none)
    (hinline : ∀ mimeType buf, data_url image.url = some (mimeType, buf) → buf ≠ [] →
      (mimeType = image_png →
        (_svg_image_read_png_data w buf image).status = SVGINT_STATUS_IMAGE_NOT_PNG) ∧
      (mimeType = image_png ∨ mimeType = image_jpeg →
        (_svg_image_read_jpeg_data w buf image).status = SVGINT_STATUS_IMAGE_NOT_JPEG)) :
    ∃ log, _svg_image_read_image w image = file_dispatch w image log := by
  unfold _svg_image_read_image
  simp only [h0, Option.isSome_none, Bool.false_eq_true, if_false]
  cases hd : data_url image.url with
  | none => exact ⟨[], rfl⟩
  | some p =>
    obtain ⟨mimeType, buf⟩ := p
    by_cases hb : buf.length = 0
    · simp only [hb, if_true]
      exact ⟨[], rfl⟩
    · simp only [hb, if_false]
      have hne : buf ≠ [] := fun h => hb (by simp [h])
      obtain ⟨h1, h2⟩ := hinline mimeType buf hd hne
      obtain ⟨log1, hl⟩ := inline_dispatch_reject w mimeType buf image h1 h2
      rw [hl]
      exact ⟨log1, rfl⟩

end SvgImage
